import Mathlib

set_option maxHeartbeats 1000000

/-!
Verification development for the LemmesExtraction repository.

Shallow embedding of the ontology-guided classification pipeline:
string similarity matching (`src/similarity_calculator.py`), term validation
against the controlled vocabulary (`src/enhanced_llm_extractor.py`), lemma
classification into Hub/Link/Satellite records (`src/ontology_matcher.py`),
and Data Vault schema assembly, validation and merging
(`src/datavault_generator.py`, `src/models/*.py`).

External collaborators are modelled as parameters: `md5` stands for
`hashlib.md5(...).hexdigest()`, `find_best` for the injected similarity
calculator, `jw` for `jellyfish.jaro_winkler_similarity`, `close_matches`
for `difflib.get_close_matches`, and clock values for `datetime.now()`.
Floating point scores are modelled as rationals.
-/

/-- Model of the Python substring test `needle in hay` on strings. -/
def strContainsSub (hay needle : String) : Bool :=
  hay.toList.tails.any (fun suf => needle.toList.isPrefixOf suf)

/-- ASCII lowercase of one character (Python `str.lower()` restricted to the
ASCII range; the repository vocabulary is lowercase ASCII apart from the
diacritics handled by `unidecodeChar`). -/
def pyLowerChar (c : Char) : Char :=
  if 'A' ≤ c ∧ c ≤ 'Z' then Char.ofNat (c.toNat + 32) else c

/-- Python `str.lower()`. -/
def pyLower (s : String) : String :=
  String.mk (s.toList.map pyLowerChar)

/-- The whitespace characters stripped by Python `str.strip()` and split on
by `str.split()`. -/
def isPySpace (c : Char) : Bool :=
  c = ' ' ∨ c = '\t' ∨ c = '\n' ∨ c = '\r' ∨ c = Char.ofNat 11 ∨ c = Char.ofNat 12

/-- Python `str.strip()`. -/
def pyStrip (s : String) : String :=
  String.mk (((s.toList.dropWhile isPySpace).reverse.dropWhile isPySpace).reverse)

/-- Python `str.replace(a, b)` for single-character patterns (the only form
the sources use). -/
def replaceChar (a b : Char) (s : String) : String :=
  String.mk (s.toList.map (fun c => if c = a then b else c))

/-- Helper of `pyWords`: split a character list on whitespace runs. -/
def pyWordsAux : List Char → List Char → List (List Char)
  | [], acc => if acc = [] then [] else [acc.reverse]
  | c :: cs, acc =>
    if isPySpace c then
      (if acc = [] then pyWordsAux cs [] else acc.reverse :: pyWordsAux cs [])
    else pyWordsAux cs (c :: acc)

/-- Python `str.split()` with no argument: whitespace runs, no empty parts. -/
def pyWords (s : String) : List String :=
  (pyWordsAux s.toList []).map String.mk

/-- Python `s[:n]`. -/
def pyTake (s : String) (n : Nat) : String :=
  String.mk (s.toList.take n)

/-- Python `s.startswith(t)`. -/
def strStartsWith (s t : String) : Bool :=
  t.toList.isPrefixOf s.toList

/-- Python `" ".join(parts)`. -/
def joinSpace (parts : List String) : String :=
  String.mk (List.flatten (List.intersperse [' '] (parts.map String.toList)))

/-- Model of the external `unidecode` transliteration, restricted to the
accented Latin characters that occur in this repository; ASCII characters map
to themselves and characters outside the modelled range are dropped. -/
def unidecodeChar (c : Char) : String :=
  if c.toNat < 128 then String.singleton c
  else if c = 'à' ∨ c = 'â' ∨ c = 'ä' then "a"
  else if c = 'é' ∨ c = 'è' ∨ c = 'ê' ∨ c = 'ë' then "e"
  else if c = 'î' ∨ c = 'ï' then "i"
  else if c = 'ô' ∨ c = 'ö' then "o"
  else if c = 'ù' ∨ c = 'û' ∨ c = 'ü' then "u"
  else if c = 'ç' then "c"
  else ""

/-- Model of `unidecode.unidecode` on whole strings. -/
def unidecodeStr (s : String) : String :=
  String.join (s.toList.map unidecodeChar)

/-- Python truthiness filter for an optional string: `None` and the empty
string are falsy. -/
def truthy (o : Option String) : Option String :=
  match o with
  | some s => if s = "" then none else some s
  | none => none

/-- Data Vault Hub record (`src/models/hub.py`).  `load_date` is an injected
clock value standing for `datetime.now()`. -/
structure Hub where
  business_key : String
  entity_type : String
  record_source : String
  ontology_uri : String
  confidence_score : ℚ
  load_date : Nat
  hub_key : String
deriving Repr, DecidableEq

/-- `Hub._generate_hub_key`: MD5 of `f"{business_key}_{entity_type}"`; the
hash itself is the parameter `md5`. -/
def Hub.generateHubKey (md5 : String → String) (business_key entity_type : String) : String :=
  md5 (business_key ++ "_" ++ entity_type)

/-- Construction of a `Hub` through `Hub.__post_init__` with `hub_key=None`,
so the key is generated from the business key and entity type. -/
def mkHub (md5 : String → String) (now : Nat)
    (business_key entity_type record_source ontology_uri : String)
    (confidence_score : ℚ) : Hub :=
  { business_key := business_key
    entity_type := entity_type
    record_source := record_source
    ontology_uri := ontology_uri
    confidence_score := confidence_score
    load_date := now
    hub_key := Hub.generateHubKey md5 business_key entity_type }

/-- Data Vault Link record (`src/models/link.py`). -/
structure Link where
  hub_source_key : String
  hub_target_key : String
  relation_type : String
  record_source : String
  confidence_score : ℚ
  load_date : Nat
  link_key : String
deriving Repr, DecidableEq

/-- `Link._generate_link_key`: MD5 of
`f"{hub_source_key}_{relation_type}_{hub_target_key}"`. -/
def Link.generateLinkKey (md5 : String → String)
    (hub_source_key relation_type hub_target_key : String) : String :=
  md5 (hub_source_key ++ "_" ++ relation_type ++ "_" ++ hub_target_key)

/-- Construction of a `Link` through `Link.__post_init__` with
`link_key=None`. -/
def mkLink (md5 : String → String) (now : Nat)
    (hub_source_key hub_target_key relation_type record_source : String)
    (confidence_score : ℚ) : Link :=
  { hub_source_key := hub_source_key
    hub_target_key := hub_target_key
    relation_type := relation_type
    record_source := record_source
    confidence_score := confidence_score
    load_date := now
    link_key := Link.generateLinkKey md5 hub_source_key relation_type hub_target_key }

/-- Data Vault Satellite record (`src/models/satellite.py`). -/
structure Satellite where
  hub_key : String
  attribute_name : String
  attribute_value : String
  record_source : String
  confidence_score : ℚ
  load_date : Nat
  satellite_key : String
  hash_diff : String
deriving Repr, DecidableEq

/-- Construction of a `Satellite` through `Satellite.__post_init__`: the key
is time-salted with the load date, `hash_diff` hashes name, value and score. -/
def mkSatellite (md5 : String → String) (now : Nat)
    (hub_key attribute_name attribute_value record_source : String)
    (confidence_score : ℚ) : Satellite :=
  { hub_key := hub_key
    attribute_name := attribute_name
    attribute_value := attribute_value
    record_source := record_source
    confidence_score := confidence_score
    load_date := now
    satellite_key := md5 (hub_key ++ "_" ++ attribute_name ++ "_" ++ toString now)
    hash_diff := md5 (attribute_name ++ "_" ++ attribute_value ++ "_" ++ toString confidence_score) }

namespace OntologyMatcher

/-- `OntologyMatcher.PLANTES`. -/
def PLANTES : List String := ["corn", "onion", "tomato", "mais", "oignon", "tomate"]

/-- `OntologyMatcher.MALADIES`. -/
def MALADIES : List String :=
  ["helminthosporiose", "rouille", "fusariose", "curvulariose", "striure", "virose",
   "alternariose", "mildiou", "pourriture_blanche", "bacteriose", "bacterial_wilt",
   "virus_tylcv", "stress_abiotique"]

/-- `OntologyMatcher.RAVAGEURS`. -/
def RAVAGEURS : List String :=
  ["foreur_tige", "chenille_legionnaire", "puceron", "cicadelle",
   "thrips", "mouche_oignon", "chenille", "nematode",
   "aleurode", "acarien", "mineuse", "noctuelle"]

/-- `OntologyMatcher.RELATIONS`. -/
def RELATIONS : List String := ["has_disease", "has_infestation", "has_health_status"]

/-- `OntologyMatcher.SYMPTOMES`. -/
def SYMPTOMES : List String :=
  ["chlorose", "necrose", "fletrissement", "tache", "lesion", "pourriture",
   "deformation", "mosaique", "galerie", "perforation", "miellat", "striure",
   "galle", "nanisme", "toile", "morsure"]

/-- `OntologyMatcher.ETAT_FOLIAIRE`. -/
def ETAT_FOLIAIRE : List String :=
  ["saine", "malade", "fletrie", "seche", "tachetee", "chlorotique", "necrotique",
   "perforee", "enroulee", "turgescente", "cassante", "mourante", "morte",
   "brulee", "decoloree", "rougie", "tordue", "froissee", "tombante", "dressee",
   "aplatie", "ratatinee", "dechiree", "striee", "marbree", "poudreuse",
   "collante", "fumagine", "entoilee", "minee", "jeune", "mature", "senescente"]

/-- `OntologyMatcher.MORPHOLOGIE_COULEUR`. -/
def MORPHOLOGIE_COULEUR : List String :=
  ["vert_fonce", "vert_clair", "vert_jaunatre", "jaune", "brun", "vert_bleuatre",
   "vert_grisatre", "vert", "rouge", "orange", "noir", "blanc"]

/-- `OntologyMatcher.MORPHOLOGIE_FORME`. -/
def MORPHOLOGIE_FORME : List String :=
  ["lineaire_lanceolee", "tubulaire_cylindrique", "composee_imparipennee",
   "simple", "composee", "simple_tubulaire", "ovale", "lanceolee"]

/-- `OntologyMatcher.MORPHOLOGIE_TEXTURE`. -/
def MORPHOLOGIE_TEXTURE : List String :=
  ["lisse", "rugueuse", "cireuse", "creuse", "pubescente", "glanduleuse",
   "lisse_cireuse", "legerement_rugueuse"]

/-- `OntologyMatcher.MORPHOLOGIE_NERVATION`. -/
def MORPHOLOGIE_NERVATION : List String :=
  ["nervation_parallele", "nervation_reticulee", "parallele", "reticulee"]

/-- Context of one `OntologyMatcher` instance: the injected hash, clock,
similarity calculator (`find_best` stands for
`self.similarity_calc.find_best_match`), the relation lemmas contributed by
the optional RDF ontology, and the thresholds dictionary. -/
structure Ctx where
  md5 : String → String
  now : Nat
  find_best : String → List String → ℚ → Option String × ℚ
  onto_relations : List String
  theta_c : ℚ
  theta_a : ℚ

/-- `_build_vocabulary_sets`: Hub vocabulary = plants + diseases + pests. -/
def hubVocabulary : List String := PLANTES ++ MALADIES ++ RAVAGEURS

/-- `_build_vocabulary_sets` + `_enrich_from_ontology`: Link vocabulary =
relations, enriched with ontology relation lemmas that contain `has_`. -/
def linkVocabulary (onto_relations : List String) : List String :=
  RELATIONS ++ onto_relations.filter (fun s => strContainsSub s "has_")

/-- `_build_vocabulary_sets`: Satellite vocabulary = symptoms + leaf states +
colors + shapes + textures + venation. -/
def satelliteVocabulary : List String :=
  SYMPTOMES ++ ETAT_FOLIAIRE ++ MORPHOLOGIE_COULEUR ++ MORPHOLOGIE_FORME ++
    MORPHOLOGIE_TEXTURE ++ MORPHOLOGIE_NERVATION

/-- `self.satellite_type_map` with its `.get(_, "attribut")` default; the six
source sets are pairwise disjoint, so first-match lookup coincides with the
dictionary built by successive insertion. -/
def satelliteTypeMap (t : String) : String :=
  if SYMPTOMES.contains t then "symptome"
  else if ETAT_FOLIAIRE.contains t then "etat_foliaire"
  else if MORPHOLOGIE_COULEUR.contains t then "couleur"
  else if MORPHOLOGIE_FORME.contains t then "forme"
  else if MORPHOLOGIE_TEXTURE.contains t then "texture"
  else if MORPHOLOGIE_NERVATION.contains t then "nervation"
  else "attribut"

/-- `OntologyMatcher._classify_lemma`: deterministic category lookup in fixed
priority order; returns the category and sub-type strings of the source. -/
def classifyLemma (ctx : Ctx) (lem : String) : String × Option String :=
  let l := pyStrip (pyLower lem)
  if PLANTES.contains l then ("hub", some "plante")
  else if MALADIES.contains l then ("hub", some "maladie")
  else if RAVAGEURS.contains l then ("hub", some "ravageur")
  else if RELATIONS.contains l || (linkVocabulary ctx.onto_relations).contains l then ("link", some "relation")
  else if SYMPTOMES.contains l then ("satellite", some "symptome")
  else if ETAT_FOLIAIRE.contains l then ("satellite", some "etat_foliaire")
  else if MORPHOLOGIE_COULEUR.contains l then ("satellite", some "couleur")
  else if MORPHOLOGIE_FORME.contains l then ("satellite", some "forme")
  else if MORPHOLOGIE_TEXTURE.contains l then ("satellite", some "texture")
  else if MORPHOLOGIE_NERVATION.contains l then ("satellite", some "nervation")
  else ("unknown", none)

/-- `OntologyMatcher._classify_unknown_lemma`: similarity rescue of an
unrecognised lemma; may append a Hub or a `(lemma, category)` satellite
candidate, or a generic `description` candidate when the lemma is longer
than 2 characters.  The `truthy` filters mirror `if best_hub:` on the value
returned by the similarity calculator. -/
def classifyUnknownLemma (ctx : Ctx) (image_source : String) (lem : String)
    (hubs : List Hub) (sats : List (String × String)) :
    List Hub × List (String × String) :=
  let hubRes := ctx.find_best (pyLower lem) hubVocabulary ctx.theta_c
  match truthy hubRes.1 with
  | some best_hub =>
    let entity_type :=
      if PLANTES.contains best_hub then "plante"
      else if MALADIES.contains best_hub then "maladie"
      else "ravageur"
    let hub := mkHub ctx.md5 ctx.now (pyLower lem) entity_type image_source
      ("http://example.org/ontology#" ++ best_hub) hubRes.2
    (hubs ++ [hub], sats)
  | none =>
    let satRes := ctx.find_best (pyLower lem) satelliteVocabulary ctx.theta_a
    match truthy satRes.1 with
    | some best_sat => (hubs, sats ++ [(lem, satelliteTypeMap best_sat)])
    | none =>
      if lem.length > 2 then (hubs, sats ++ [(lem, "description")])
      else (hubs, sats)

/-- State of Phase 1 of `classify_lemmas`: the accumulated hub list, the
satellite candidate bag, the single plant-hub and problem-hub slots, and the
last relation lemma seen. -/
structure Phase1State where
  hubs : List Hub
  sats : List (String × String)
  plante_hub : Option Hub
  probleme_hub : Option Hub
  relation_lemma : Option String
deriving Repr

/-- Initial Phase 1 state of `classify_lemmas`. -/
def initState : Phase1State :=
  { hubs := [], sats := [], plante_hub := none, probleme_hub := none,
    relation_lemma := none }

/-- One iteration of the Phase 1 loop of `classify_lemmas` on a single
lemma, mirroring the `if category == ... / elif ...` chain of the source.
The sub-type accompanying a `hub` or `satellite` category is always present
(`.getD ""` totalizes the access). -/
def phase1Step (ctx : Ctx) (image_source : String) (st : Phase1State)
    (lem : String) : Phase1State :=
  let c := classifyLemma ctx lem
  if c.1 = "hub" then
    if c.2 = some "plante" then
      let h := mkHub ctx.md5 ctx.now (pyLower lem) "plante" image_source
        ("http://example.org/ontology#" ++ lem) 1
      { st with hubs := st.hubs ++ [h], plante_hub := some h }
    else if c.2 = some "maladie" ∨ c.2 = some "ravageur" then
      let h := mkHub ctx.md5 ctx.now (pyLower lem) (c.2.getD "") image_source
        ("http://example.org/ontology#" ++ lem) 1
      { st with hubs := st.hubs ++ [h], probleme_hub := some h }
    else st
  else if c.1 = "link" then { st with relation_lemma := some (pyLower lem) }
  else if c.1 = "satellite" then { st with sats := st.sats ++ [(lem, c.2.getD "")] }
  else
    let res := classifyUnknownLemma ctx image_source lem st.hubs st.sats
    { st with hubs := res.1, sats := res.2 }

/-- Phase 1 of `classify_lemmas`: fold the per-lemma classification over the
input list. -/
def phase1 (ctx : Ctx) (image_source : String) (lemmas : List String) : Phase1State :=
  lemmas.foldl (phase1Step ctx image_source) initState

/-- Phase 2 of `classify_lemmas`: create the Link between the plant-hub and
problem-hub slots when both are present; the relation type is the explicit
relation lemma when one was found (Python truthiness), else inferred from the
problem hub entity type. -/
def phase2Links (ctx : Ctx) (image_source : String) (st : Phase1State) : List Link :=
  match st.plante_hub, st.probleme_hub with
  | some p, some q =>
    let relation_type :=
      match truthy st.relation_lemma with
      | some r => r
      | none =>
        if q.entity_type = "maladie" then "has_disease"
        else if q.entity_type = "ravageur" then "has_infestation"
        else "has_health_status"
    [mkLink ctx.md5 ctx.now p.hub_key q.hub_key relation_type image_source 1]
  | _, _ => []

/-- `DISEASE_SAT_TYPES` of Phase 3. -/
def DISEASE_SAT_TYPES : List String := ["symptome"]

/-- `PLANT_SAT_TYPES` of Phase 3 (declared by the source; the attachment
logic only tests membership in `DISEASE_SAT_TYPES`). -/
def PLANT_SAT_TYPES : List String :=
  ["etat_foliaire", "couleur", "forme", "texture", "nervation", "description"]

/-- Phase 3 of `classify_lemmas`: attach each satellite candidate to a parent
hub (symptoms to the problem hub, everything else to the plant hub, falling
back to the first hub, dropping the candidate when no hub exists). -/
def phase3Satellites (ctx : Ctx) (image_source : String) (st : Phase1State) :
    List Satellite :=
  st.sats.filterMap (fun ls =>
    let parent : Option Hub :=
      if DISEASE_SAT_TYPES.contains ls.2 ∧ st.probleme_hub.isSome then st.probleme_hub
      else if st.plante_hub.isSome then st.plante_hub
      else st.hubs.head?
    parent.map (fun h =>
      mkSatellite ctx.md5 ctx.now h.hub_key ls.2 (pyLower ls.1) image_source 0.95))

/-- `OntologyMatcher.classify_lemmas`: the full three-phase classification. -/
def classifyLemmas (ctx : Ctx) (lemmas : List String) (image_source : String) :
    List Hub × List Link × List Satellite :=
  let st := phase1 ctx image_source lemmas
  (st.hubs, phase2Links ctx image_source st, phase3Satellites ctx image_source st)

end OntologyMatcher

namespace SimilarityCalculator

/-- `_normalize_cached`: lowercase, strip diacritics, replace underscores and
hyphens with spaces, collapse whitespace (`" ".join(s.split()).strip()`). -/
def normalizeString (s : String) : String :=
  let s1 := unidecodeStr (pyLower s)
  let s2 := replaceChar '-' ' ' (replaceChar '_' ' ' s1)
  joinSpace (pyWords s2)

/-- `_lexical_similarity`: Jaro-Winkler (the external `jellyfish` call is the
parameter `jw`) with a 10% common-3-prefix bonus and a 15% inclusion bonus,
each clamped to 1. -/
def lexicalSimilarity (jw : String → String → ℚ) (s1 s2 : String) : ℚ :=
  if s1 = "" ∨ s2 = "" then 0
  else
    let score0 := jw s1 s2
    let score1 :=
      if 3 ≤ s1.length ∧ 3 ≤ s2.length ∧
          (strStartsWith s1 (pyTake s2 3) ∨ strStartsWith s2 (pyTake s1 3)) then
        min 1 (score0 * 1.1)
      else score0
    if strContainsSub s2 s1 ∨ strContainsSub s1 s2 then min 1 (score1 * 1.15)
    else score1

/-- `_jaro_winkler_similarity`: the pure Jaro-Winkler score without bonuses. -/
def jaroWinklerSimilarity (jw : String → String → ℚ) (s1 s2 : String) : ℚ :=
  if s1 = "" ∨ s2 = "" then 0 else jw s1 s2

/-- `_get_embedding`: the remote fetch is the parameter `fetch`; `none`
models an HTTP error or exception, in which case the code returns
`np.zeros(384)`.  The per-string cache is semantically transparent (one
result per input string) and is not modelled separately. -/
def getEmbedding (fetch : String → Option (List ℚ)) (text : String) : List ℚ :=
  match fetch text with
  | some v => v
  | none => List.replicate 384 0

/-- `np.dot` on same-length vectors. -/
def dotProduct (v w : List ℚ) : ℚ :=
  (List.zipWith (fun a b => a * b) v w).sum

/-- Squared Euclidean norm; `np.linalg.norm(v) == 0` iff `normSq v = 0`. -/
def normSq (v : List ℚ) : ℚ := dotProduct v v

/-- `_cosine_similarity` (CPU path): returns 0 when either norm is zero,
else the cosine of the two vectors. -/
noncomputable def cosineSimilarity (v w : List ℚ) : ℝ :=
  if normSq v = 0 ∨ normSq w = 0 then 0
  else (dotProduct v w : ℝ) / (Real.sqrt (normSq v) * Real.sqrt (normSq w))

/-- `_semantic_similarity`: cosine of the two embeddings of the raw strings,
remapped from [-1,1] to [0,1]. -/
noncomputable def semanticSimilarity (fetch : String → Option (List ℚ))
    (s1 s2 : String) : ℝ :=
  if s1 = "" ∨ s2 = "" then 0
  else (cosineSimilarity (getEmbedding fetch s1) (getEmbedding fetch s2) + 1) / 2

/-- `_get_ngrams_cached`: character n-grams of the text padded with `$`
boundary markers. -/
def ngrams (text : String) (n : Nat) : List (List Char) :=
  let padded := ("$" ++ text ++ "$").toList
  (List.range (padded.length - n + 1)).map (fun i => (padded.drop i).take n)

/-- `_cosine_ngram_similarity`: cosine over character-bigram count vectors of
the two strings (the key set iteration order does not affect the value). -/
noncomputable def cosineNgramSimilarity (s1 s2 : String) : ℝ :=
  if s1 = "" ∨ s2 = "" then 0
  else
    let g1 := ngrams s1 2
    let g2 := ngrams s2 2
    let allNg := (g1 ++ g2).dedup
    cosineSimilarity (allNg.map (fun g => (g1.count g : ℚ)))
      (allNg.map (fun g => (g2.count g : ℚ)))

/-- Configuration of one `SimilarityCalculator` instance: the selected
algorithm, the external Jaro-Winkler implementation and the remote embedding
fetch. -/
structure CalcCtx where
  algorithm : String
  jw : String → String → ℚ
  fetch : String → Option (List ℚ)

/-- `calculate_similarity`: exact-match short-circuit on the normalized
strings, then dispatch on the selected algorithm (`hybrid` is the default
branch). -/
noncomputable def calculateSimilarity (c : CalcCtx) (lem term : String) : ℝ :=
  let ln := normalizeString lem
  let tn := normalizeString term
  if ln = tn then 1
  else if c.algorithm = "lexical" then (lexicalSimilarity c.jw ln tn : ℝ)
  else if c.algorithm = "semantic" then semanticSimilarity c.fetch lem term
  else if c.algorithm = "jaro_winkler" then (jaroWinklerSimilarity c.jw ln tn : ℝ)
  else if c.algorithm = "cosine" then cosineNgramSimilarity ln tn
  else if c.algorithm = "jaro_cosine" then
    max (jaroWinklerSimilarity c.jw ln tn : ℝ) (cosineNgramSimilarity ln tn)
  else
    max (lexicalSimilarity c.jw ln tn : ℝ) (semanticSimilarity c.fetch lem term)

/-- Loop of `find_best_match`: keep a candidate only when its score is
strictly greater than the best so far and at least the threshold. -/
noncomputable def findBestMatchGo (c : CalcCtx) (lem : String) (threshold : ℝ)
    (best : Option String × ℝ) : List String → Option String × ℝ
  | [] => best
  | t :: ts =>
    let score := calculateSimilarity c lem t
    if best.2 < score ∧ threshold ≤ score then
      findBestMatchGo c lem threshold (some t, score) ts
    else
      findBestMatchGo c lem threshold best ts

/-- `find_best_match`: linear scan over the candidate list starting from
`(None, 0.0)`. -/
noncomputable def findBestMatch (c : CalcCtx) (lem : String)
    (ontology_terms : List String) (threshold : ℝ) : Option String × ℝ :=
  if ontology_terms = [] then (none, 0)
  else findBestMatchGo c lem threshold (none, 0) ontology_terms

end SimilarityCalculator

namespace OntologyValidator

/-- `OntologyValidator.HUBS["plantes"]`. -/
def HUBS_plantes : List String := ["corn", "onion", "tomato", "mais", "oignon", "tomate"]

/-- `OntologyValidator.LINKS["relations"]`. -/
def LINKS_relations : List String :=
  ["has_disease", "has_infestation", "has_health_status",
   "a_maladie", "a_infestation", "a_etat_sante"]

/-- `OntologyValidator.SATELLITES["symptomes"]`. -/
def SATELLITES_symptomes : List String :=
  ["chlorose", "necrose", "fletrissement", "lesion", "tache", "striure",
   "mosaique", "pourriture", "galle", "deformation", "nanisme", "toile",
   "galerie", "miellat", "morsure", "jaunissement", "perforation"]

/-- `OntologyValidator.PLANT_ALIASES`: localized plant names to canonical
identifiers. -/
def PLANT_ALIASES : List (String × String) :=
  [("mais", "corn"), ("maïs", "corn"), ("oignon", "onion"), ("tomate", "tomato")]

/-- The normalization step of `validate_term`: lowercase, spaces and hyphens
to underscores, strip diacritics. -/
def normalize_value (value : String) : String :=
  unidecodeStr (replaceChar '-' '_' (replaceChar ' ' '_' (pyLower value)))

/-- `OntologyValidator.validate_term`: normalize; exact match wins; else first
substring match in iteration order; else the external
`difflib.get_close_matches` fallback (the parameter `close_matches`, given
the normalized term, the category and the cutoff); else `None`. -/
def validate_term (close_matches : String → List String → ℚ → Option String)
    (value : String) (valid_terms : List String) (cutoff : ℚ) : Option String :=
  if value = "" then none
  else
    let v := normalize_value value
    if valid_terms.contains v then some v
    else
      match valid_terms.find? (fun t => strContainsSub v t || strContainsSub t v) with
      | some t => some t
      | none => close_matches v valid_terms cutoff

/-- `OntologyValidator.identify_plant`: normalize, consult the alias table,
else fall back to `validate_term` against the plant category with the
default cutoff 0.6. -/
def identify_plant (close_matches : String → List String → ℚ → Option String)
    (lemme : String) : Option String :=
  let lemme_norm := unidecodeStr (pyLower lemme)
  match PLANT_ALIASES.lookup lemme_norm with
  | some p => some p
  | none => validate_term close_matches lemme HUBS_plantes 0.6

end OntologyValidator

/-- Metadata values of a Data Vault schema (`metadata` is a Python dict with
string, integer and string-list values). -/
inductive MetaVal where
  | str : String → MetaVal
  | num : Nat → MetaVal
  | strList : List String → MetaVal
deriving Repr, DecidableEq

/-- `DataVaultSchema` (`src/datavault_generator.py`). -/
structure DataVaultSchema where
  hubs : List Hub
  links : List Link
  satellites : List Satellite
  metadata : List (String × MetaVal)
deriving Repr, DecidableEq

/-- Values of an exported record dictionary. -/
inductive DVal where
  | str : String → DVal
  | num : ℚ → DVal
deriving Repr, DecidableEq

/-- Python `round` (banker's rounding, half to even) on rationals. -/
def pyRound (x : ℚ) : ℤ :=
  let f := ⌊x⌋
  let r := x - f
  if r < 1/2 then f
  else if 1/2 < r then f + 1
  else if Even f then f else f + 1

/-- `round(x, 4)`: confidence scores are exported with 4-decimal rounding. -/
def round4 (x : ℚ) : ℚ := (pyRound (x * 10000) : ℚ) / 10000

/-- `Hub.to_dict` (the ISO-8601 timestamp is the rendered clock value). -/
def Hub.toDict (h : Hub) : List (String × DVal) :=
  [("hub_key", .str h.hub_key),
   ("business_key", .str h.business_key),
   ("entity_type", .str h.entity_type),
   ("ontology_uri", .str h.ontology_uri),
   ("confidence_score", .num (round4 h.confidence_score)),
   ("load_date", .str (toString h.load_date)),
   ("record_source", .str h.record_source)]

/-- `Link.to_dict`. -/
def Link.toDict (l : Link) : List (String × DVal) :=
  [("link_key", .str l.link_key),
   ("hub_source_key", .str l.hub_source_key),
   ("hub_target_key", .str l.hub_target_key),
   ("relation_type", .str l.relation_type),
   ("confidence_score", .num (round4 l.confidence_score)),
   ("load_date", .str (toString l.load_date)),
   ("record_source", .str l.record_source)]

/-- `Satellite.to_dict`. -/
def Satellite.toDict (s : Satellite) : List (String × DVal) :=
  [("satellite_key", .str s.satellite_key),
   ("hub_key", .str s.hub_key),
   ("attribute_name", .str s.attribute_name),
   ("attribute_value", .str s.attribute_value),
   ("confidence_score", .num (round4 s.confidence_score)),
   ("load_date", .str (toString s.load_date)),
   ("record_source", .str s.record_source),
   ("hash_diff", .str s.hash_diff)]

/-- Result of `DataVaultSchema.to_dict`. -/
structure SchemaDict where
  metadata : List (String × MetaVal)
  hubs : List (List (String × DVal))
  links : List (List (String × DVal))
  satellites : List (List (String × DVal))
deriving Repr, DecidableEq

/-- `DataVaultSchema.to_dict`: nested dictionary export of the schema. -/
def DataVaultSchema.toDict (s : DataVaultSchema) : SchemaDict :=
  { metadata := s.metadata
    hubs := s.hubs.map Hub.toDict
    links := s.links.map Link.toDict
    satellites := s.satellites.map Satellite.toDict }

namespace DataVaultGenerator

/-- `generate_schema`: pure assembly of the records plus stamped metadata. -/
def generate_schema (now : Nat) (hubs : List Hub) (links : List Link)
    (satellites : List Satellite) (source_image : String) (lemmas : List String) :
    DataVaultSchema :=
  { hubs := hubs, links := links, satellites := satellites,
    metadata :=
      [("generated_at", .num now),
       ("source_image", .str source_image),
       ("original_lemmas", .strList lemmas),
       ("lemmas_count", .num lemmas.length),
       ("generator_version", .str "1.0.0")] }

/-- `_check_key_uniqueness`, written in state-passing form: the schema the
method leaves behind is returned alongside the diagnostics it appends. -/
def check_key_uniqueness (s : DataVaultSchema) : DataVaultSchema × List String :=
  let hub_keys := s.hubs.map (fun h => h.hub_key)
  let link_keys := s.links.map (fun l => l.link_key)
  let satellite_keys := s.satellites.map (fun x => x.satellite_key)
  (s,
   (if hub_keys.length ≠ hub_keys.dedup.length then
      ["ERREUR: Clés Hub en double détectées"] else []) ++
   (if link_keys.length ≠ link_keys.dedup.length then
      ["ERREUR: Clés Link en double détectées"] else []) ++
   (if satellite_keys.length ≠ satellite_keys.dedup.length then
      ["ERREUR: Clés Satellite en double détectées"] else []))

/-- `_check_referential_integrity` in state-passing form: every Link endpoint
and Satellite owner must be a known hub key; violations yield WARNING
diagnostics. -/
def check_referential_integrity (s : DataVaultSchema) : DataVaultSchema × List String :=
  let valid_hub_keys := s.hubs.map (fun h => h.hub_key)
  (s,
   (s.links.map (fun l =>
     (if valid_hub_keys.contains l.hub_source_key then [] else
       ["WARNING: Link " ++ pyTake l.link_key 8 ++ "... référence un Hub source invalide"]) ++
     (if valid_hub_keys.contains l.hub_target_key then [] else
       ["WARNING: Link " ++ pyTake l.link_key 8 ++ "... référence un Hub target invalide"]))).flatten ++
   (s.satellites.map (fun x =>
     if valid_hub_keys.contains x.hub_key then [] else
       ["WARNING: Satellite " ++ pyTake x.satellite_key 8 ++ "... référence un Hub invalide"])).flatten)

/-- `_check_confidence_scores` in state-passing form. -/
def check_confidence_scores (s : DataVaultSchema) : DataVaultSchema × List String :=
  (s,
   (s.hubs.map (fun h =>
     if 0 ≤ h.confidence_score ∧ h.confidence_score ≤ 1 then [] else
       ["WARNING: Hub " ++ h.business_key ++ " a un score invalide: " ++
         toString h.confidence_score])).flatten ++
   (s.links.map (fun l =>
     if 0 ≤ l.confidence_score ∧ l.confidence_score ≤ 1 then [] else
       ["WARNING: Link " ++ pyTake l.link_key 8 ++ "... a un score invalide: " ++
         toString l.confidence_score])).flatten ++
   (s.satellites.map (fun x =>
     if 0 ≤ x.confidence_score ∧ x.confidence_score ≤ 1 then [] else
       ["WARNING: Satellite " ++ x.attribute_name ++ " a un score invalide: " ++
         toString x.confidence_score])).flatten)

/-- Duplicate ordered-pair scan of `_check_structural_constraints`: stops at
the first duplicate found. -/
def firstDuplicatePair (seen : List (String × String)) :
    List Link → List String
  | [] => []
  | l :: ls =>
    let pair := (l.hub_source_key, l.hub_target_key)
    if seen.contains pair then
      ["WARNING: Links en double détectés entre les mêmes Hubs."]
    else firstDuplicatePair (pair :: seen) ls

/-- `_check_structural_constraints` in state-passing form. -/
def check_structural_constraints (s : DataVaultSchema) : DataVaultSchema × List String :=
  (s,
   (if s.hubs.length = 0 then
      ["WARNING: Aucun Hub détecté. Au moins une plante devrait être identifiée."]
    else []) ++
   (if 0 < s.links.length ∧ s.hubs.length < 2 then
      ["WARNING: " ++ toString s.links.length ++ " Link(s) détecté(s) mais seulement " ++
        toString s.hubs.length ++ " Hub(s). Un Link nécessite 2 Hubs."]
    else []) ++
   (if 1 < s.links.length then firstDuplicatePair [] s.links else []))

/-- `validate_schema` in state-passing form: runs the four checks in order,
threading the schema object through them, and collects the diagnostics. -/
def validate_schema_run (s : DataVaultSchema) : DataVaultSchema × List String :=
  let r1 := check_key_uniqueness s
  let r2 := check_referential_integrity r1.1
  let r3 := check_confidence_scores r2.1
  let r4 := check_structural_constraints r3.1
  (r4.1, r1.2 ++ r2.2 ++ r3.2 ++ r4.2)

/-- `validate_schema`: the list of diagnostics (never raised). -/
def validate_schema (s : DataVaultSchema) : List String :=
  (validate_schema_run s).2

/-- Accumulator of `merge_schemas`: merged record lists and the seen-key
sets (`seen_satellite_keys` is populated but never consulted, as in the
source). -/
structure MergeAcc where
  hubs : List Hub
  links : List Link
  satellites : List Satellite
  seen_hub_keys : List String
  seen_link_keys : List String
  seen_satellite_keys : List String

/-- Hub loop body of `merge_schemas`: skip a hub whose key was already
seen, else keep it and record its key. -/
def dedupHubStep (p : List Hub × List String) (h : Hub) : List Hub × List String :=
  if p.2.contains h.hub_key then p else (p.1 ++ [h], p.2 ++ [h.hub_key])

/-- Link loop body of `merge_schemas`. -/
def dedupLinkStep (p : List Link × List String) (l : Link) : List Link × List String :=
  if p.2.contains l.link_key then p else (p.1 ++ [l], p.2 ++ [l.link_key])

/-- Satellite loop body of `merge_schemas`: keep everything (the seen-key
set is recorded but never consulted, as in the source). -/
def keepSatelliteStep (p : List Satellite × List String) (x : Satellite) :
    List Satellite × List String :=
  (p.1 ++ [x], p.2 ++ [x.satellite_key])

/-- Merge of one schema into the accumulator: Hubs and Links deduplicate by
key (first occurrence wins), Satellites are all kept. -/
def mergeStep (acc : MergeAcc) (s : DataVaultSchema) : MergeAcc :=
  let hres := s.hubs.foldl dedupHubStep (acc.hubs, acc.seen_hub_keys)
  let lres := s.links.foldl dedupLinkStep (acc.links, acc.seen_link_keys)
  let sres := s.satellites.foldl keepSatelliteStep (acc.satellites, acc.seen_satellite_keys)
  { hubs := hres.1, links := lres.1, satellites := sres.1,
    seen_hub_keys := hres.2, seen_link_keys := lres.2, seen_satellite_keys := sres.2 }

/-- Metadata lookup `s.metadata.get("source_image", "unknown")` (the value is
always a string when present, as stamped by `generate_schema`). -/
def sourceImageOf (s : DataVaultSchema) : String :=
  match s.metadata.lookup "source_image" with
  | some (.str v) => v
  | _ => "unknown"

/-- `merge_schemas`: fold all schemas through `mergeStep` and remint
provenance metadata. -/
def merge_schemas (now : Nat) (schemas : List DataVaultSchema) : DataVaultSchema :=
  let acc := schemas.foldl mergeStep
    { hubs := [], links := [], satellites := [],
      seen_hub_keys := [], seen_link_keys := [], seen_satellite_keys := [] }
  { hubs := acc.hubs, links := acc.links, satellites := acc.satellites,
    metadata :=
      [("generated_at", .num now),
       ("merged_from", .num schemas.length),
       ("source_images", .strList (schemas.map sourceImageOf)),
       ("generator_version", .str "1.0.0")] }

end DataVaultGenerator

/-! ## General helper lemmas -/

theorem containsIffMem (as : List String) (a : String) : as.contains a = true ↔ a ∈ as :=
  List.elem_iff

theorem containsFalseIffNotMem (as : List String) (a : String) :
    as.contains a = false ↔ ¬ a ∈ as := by
  rw [Bool.eq_false_iff, ne_eq, containsIffMem]

namespace OntologyMatcher

theorem linkVocab_contains_false (onto : List String) (l : String)
    (h1 : RELATIONS.contains l = false) (h2 : strContainsSub l "has_" = false) :
    (linkVocabulary onto).contains l = false := by
  rw [containsFalseIffNotMem]
  simp only [linkVocabulary, List.mem_append, List.mem_filter]
  rintro (hr | ⟨-, hp⟩)
  · rw [containsFalseIffNotMem] at h1; exact h1 hr
  · rw [h2] at hp; cases hp

/-- Evaluation helper: on a lemma that is neither a relation name nor a
`has_`-containing string, `_classify_lemma` never consults the (unknown)
ontology-enriched link vocabulary. -/
theorem classifyLemma_notlink (ctx : Ctx) (lem : String)
    (h1 : RELATIONS.contains (pyStrip (pyLower lem)) = false)
    (h2 : strContainsSub (pyStrip (pyLower lem)) "has_" = false) :
    classifyLemma ctx lem =
      (let l := pyStrip (pyLower lem)
       if PLANTES.contains l then ("hub", some "plante")
       else if MALADIES.contains l then ("hub", some "maladie")
       else if RAVAGEURS.contains l then ("hub", some "ravageur")
       else if SYMPTOMES.contains l then ("satellite", some "symptome")
       else if ETAT_FOLIAIRE.contains l then ("satellite", some "etat_foliaire")
       else if MORPHOLOGIE_COULEUR.contains l then ("satellite", some "couleur")
       else if MORPHOLOGIE_FORME.contains l then ("satellite", some "forme")
       else if MORPHOLOGIE_TEXTURE.contains l then ("satellite", some "texture")
       else if MORPHOLOGIE_NERVATION.contains l then ("satellite", some "nervation")
       else ("unknown", none)) := by
  simp only [classifyLemma, linkVocab_contains_false ctx.onto_relations _ h1 h2, h1,
    Bool.or_self, Bool.false_eq_true, if_false]

/-- Reference recursion for the problem-hub slot: the last lemma directly
classified as a disease or a pest, with its sub-type. -/
def lastProblemStep (ctx : Ctx) (acc : Option (String × String)) (lem : String) :
    Option (String × String) :=
  let c := classifyLemma ctx lem
  if c.1 = "hub" ∧ (c.2 = some "maladie" ∨ c.2 = some "ravageur") then
    some (lem, c.2.getD "")
  else acc

/-- The last problem lemma of the input list, under direct classification. -/
def lastProblem (ctx : Ctx) (lemmas : List String) : Option (String × String) :=
  lemmas.foldl (lastProblemStep ctx) none

/-- The hub a problem lemma turns into in Phase 1. -/
def problemHubOf (ctx : Ctx) (src : String) (p : String × String) : Hub :=
  mkHub ctx.md5 ctx.now (pyLower p.1) p.2 src ("http://example.org/ontology#" ++ p.1) 1

theorem phase1Step_probleme (ctx : Ctx) (src : String) (st : Phase1State)
    (acc : Option (String × String)) (lem : String)
    (h : st.probleme_hub = acc.map (problemHubOf ctx src)) :
    (phase1Step ctx src st lem).probleme_hub =
      (lastProblemStep ctx acc lem).map (problemHubOf ctx src) := by
  unfold phase1Step lastProblemStep
  by_cases hhub : (classifyLemma ctx lem).1 = "hub"
  · by_cases hpl : (classifyLemma ctx lem).2 = some "plante"
    · have : ¬ ((classifyLemma ctx lem).2 = some "maladie" ∨
          (classifyLemma ctx lem).2 = some "ravageur") := by
        rw [hpl]; decide
      simp [hhub, hpl, this, h]
    · by_cases hmr : (classifyLemma ctx lem).2 = some "maladie" ∨
          (classifyLemma ctx lem).2 = some "ravageur"
      · simp only [hhub, hpl, hmr, if_pos, if_neg, if_true, true_and, and_true,
          eq_self_iff_true]
        simp [hhub, hpl, hmr, problemHubOf]
      · simp [hhub, hpl, hmr, h]
  · by_cases hlink : (classifyLemma ctx lem).1 = "link"
    · simp [hhub, hlink, h]
    · by_cases hsat : (classifyLemma ctx lem).1 = "satellite"
      · simp [hhub, hlink, hsat, h]
      · simp [hhub, hlink, hsat, h]

theorem phase1_probleme_slot (ctx : Ctx) (src : String) (lemmas : List String) :
    (phase1 ctx src lemmas).probleme_hub =
      (lastProblem ctx lemmas).map (problemHubOf ctx src) := by
  unfold phase1 lastProblem
  have main : ∀ (l : List String) (st : Phase1State) (acc : Option (String × String)),
      st.probleme_hub = acc.map (problemHubOf ctx src) →
      (l.foldl (phase1Step ctx src) st).probleme_hub =
        (l.foldl (lastProblemStep ctx) acc).map (problemHubOf ctx src) := by
    intro l
    induction l with
    | nil => intro st acc h; exact h
    | cons lem ls ih =>
      intro st acc h
      simp only [List.foldl]
      exact ih _ _ (phase1Step_probleme ctx src st acc lem h)
  exact main lemmas initState none rfl

end OntologyMatcher

namespace OntologyMatcher

theorem lastProblemStep_sub (ctx : Ctx) (acc : Option (String × String)) (lem : String)
    (hacc : ∀ p, acc = some p → p.2 = "maladie" ∨ p.2 = "ravageur") :
    ∀ p, lastProblemStep ctx acc lem = some p → p.2 = "maladie" ∨ p.2 = "ravageur" := by
  intro p
  unfold lastProblemStep
  by_cases hc : (classifyLemma ctx lem).1 = "hub" ∧
      ((classifyLemma ctx lem).2 = some "maladie" ∨ (classifyLemma ctx lem).2 = some "ravageur")
  · rw [if_pos hc]
    intro hp
    have hp2 : p.2 = (classifyLemma ctx lem).2.getD "" := by
      have := Option.some.inj hp
      rw [← this]
    rcases hc.2 with hm | hm <;> rw [hp2, hm] <;> simp
  · rw [if_neg hc]
    exact hacc p

theorem lastProblem_sub (ctx : Ctx) (lemmas : List String) :
    ∀ p, lastProblem ctx lemmas = some p → p.2 = "maladie" ∨ p.2 = "ravageur" := by
  unfold lastProblem
  have main : ∀ (l : List String) (acc : Option (String × String)),
      (∀ p, acc = some p → p.2 = "maladie" ∨ p.2 = "ravageur") →
      ∀ p, l.foldl (lastProblemStep ctx) acc = some p →
        p.2 = "maladie" ∨ p.2 = "ravageur" := by
    intro l
    induction l with
    | nil => intro acc hacc; exact hacc
    | cons lem ls ih =>
      intro acc hacc
      simp only [List.foldl]
      exact ih _ (lastProblemStep_sub ctx acc lem hacc)
  exact main lemmas none (by intro p hp; cases hp)

/-- Every problem-hub slot value has a disease or pest entity type. -/
theorem probleme_entity_type (ctx : Ctx) (src : String) (lemmas : List String) :
    ∀ q, (phase1 ctx src lemmas).probleme_hub = some q →
      q.entity_type = "maladie" ∨ q.entity_type = "ravageur" := by
  intro q hq
  rw [phase1_probleme_slot ctx src lemmas] at hq
  rcases hlp : lastProblem ctx lemmas with - | p
  · rw [hlp] at hq; cases hq
  · rw [hlp] at hq
    have hq2 : problemHubOf ctx src p = q := Option.some.inj hq
    have hsub := lastProblem_sub ctx lemmas p hlp
    have : q.entity_type = p.2 := by rw [← hq2]; rfl
    rw [this]
    exact hsub

/-- A concrete matcher context used by witnesses: identity hash, zero clock,
a similarity calculator that never matches, no ontology enrichment, the
default thresholds. -/
def ctxA : Ctx :=
  { md5 := id, now := 0, find_best := fun _ _ _ => (none, 0),
    onto_relations := [], theta_c := 0.75, theta_a := 0.65 }

end OntologyMatcher

/-! ## Claim theorems for the ontology matcher -/

/-- C1: for every input lemma list, `classify_lemmas` creates a Link if and
only if both a plant Hub and a problem (disease or pest) Hub exist in the
same classification pass (the plant-hub and problem-hub slots of the pass);
at most one Link is created, and its `relation_type` is the explicit
relation lemma when one was found, else `has_disease` when the problem Hub
entity type is disease (`maladie`) and `has_infestation` when it is pest
(`ravageur`). -/
theorem c1_link_lifecycle (ctx : OntologyMatcher.Ctx) (lemmas : List String) (src : String) :
    ((OntologyMatcher.classifyLemmas ctx lemmas src).2.1.length ≤ 1) ∧
    (¬ (OntologyMatcher.classifyLemmas ctx lemmas src).2.1 = [] ↔
      ((OntologyMatcher.phase1 ctx src lemmas).plante_hub.isSome ∧
        (OntologyMatcher.phase1 ctx src lemmas).probleme_hub.isSome)) ∧
    (∀ l ∈ (OntologyMatcher.classifyLemmas ctx lemmas src).2.1,
      (∃ r, truthy (OntologyMatcher.phase1 ctx src lemmas).relation_lemma = some r ∧
        l.relation_type = r) ∨
      (truthy (OntologyMatcher.phase1 ctx src lemmas).relation_lemma = none ∧
        ∃ q, (OntologyMatcher.phase1 ctx src lemmas).probleme_hub = some q ∧
          ((q.entity_type = "maladie" ∧ l.relation_type = "has_disease") ∨
           (q.entity_type = "ravageur" ∧ l.relation_type = "has_infestation")))) := by
  have hlinks : (OntologyMatcher.classifyLemmas ctx lemmas src).2.1 =
      OntologyMatcher.phase2Links ctx src (OntologyMatcher.phase1 ctx src lemmas) := rfl
  rw [hlinks]
  unfold OntologyMatcher.phase2Links
  rcases hp : (OntologyMatcher.phase1 ctx src lemmas).plante_hub with - | p
  · refine ⟨by simp, by simp [hp], by simp⟩
  · rcases hq : (OntologyMatcher.phase1 ctx src lemmas).probleme_hub with - | q
    · refine ⟨by simp, by simp [hp, hq], by simp⟩
    · refine ⟨by simp, by simp [hp, hq], ?_⟩
      intro l hl
      have hl2 : l = mkLink ctx.md5 ctx.now p.hub_key q.hub_key
          (match truthy (OntologyMatcher.phase1 ctx src lemmas).relation_lemma with
           | some r => r
           | none =>
             if q.entity_type = "maladie" then "has_disease"
             else if q.entity_type = "ravageur" then "has_infestation"
             else "has_health_status") src 1 := List.mem_singleton.mp hl
      rcases ht : truthy (OntologyMatcher.phase1 ctx src lemmas).relation_lemma with - | r
      · right
        refine ⟨rfl, q, rfl, ?_⟩
        rcases OntologyMatcher.probleme_entity_type ctx src lemmas q hq with he | he
        · left
          refine ⟨he, ?_⟩
          rw [hl2, ht]
          simp [mkLink, he]
        · right
          have hne : ¬ q.entity_type = "maladie" := by rw [he]; decide
          refine ⟨he, ?_⟩
          rw [hl2, ht]
          simp [mkLink, he, hne]
      · left
        refine ⟨r, rfl, ?_⟩
        rw [hl2, ht]
        simp [mkLink]

/-- C1 witness: on `["corn", "helminthosporiose"]` the single created Link
has no explicit relation lemma and the disease problem Hub, so its relation
type is `has_disease`. -/
theorem c1_link_lifecycle_witness :
    (∃ r, truthy (OntologyMatcher.phase1 OntologyMatcher.ctxA "img1"
        ["corn", "helminthosporiose"]).relation_lemma = some r ∧
      (mkLink id 0 (Hub.generateHubKey id "corn" "plante")
        (Hub.generateHubKey id "helminthosporiose" "maladie")
        "has_disease" "img1" 1).relation_type = r) ∨
    (truthy (OntologyMatcher.phase1 OntologyMatcher.ctxA "img1"
        ["corn", "helminthosporiose"]).relation_lemma = none ∧
      ∃ q, (OntologyMatcher.phase1 OntologyMatcher.ctxA "img1"
          ["corn", "helminthosporiose"]).probleme_hub = some q ∧
        ((q.entity_type = "maladie" ∧
            (mkLink id 0 (Hub.generateHubKey id "corn" "plante")
              (Hub.generateHubKey id "helminthosporiose" "maladie")
              "has_disease" "img1" 1).relation_type = "has_disease") ∨
         (q.entity_type = "ravageur" ∧
            (mkLink id 0 (Hub.generateHubKey id "corn" "plante")
              (Hub.generateHubKey id "helminthosporiose" "maladie")
              "has_disease" "img1" 1).relation_type = "has_infestation"))) :=
  (c1_link_lifecycle OntologyMatcher.ctxA ["corn", "helminthosporiose"] "img1").2.2
    (mkLink id 0 (Hub.generateHubKey id "corn" "plante")
      (Hub.generateHubKey id "helminthosporiose" "maladie") "has_disease" "img1" 1)
    (by decide)

/-- C2: classifying `["corn", "has_disease", "helminthosporiose", "necrose",
"vert_fonce"]` yields exactly 2 Hubs (`corn` as the plant,
`helminthosporiose` as the disease), exactly 1 Link with relation type
`has_disease` from the corn Hub key to the disease Hub key, and exactly 2
Satellites: `necrose` on the disease Hub and `vert_fonce` on the plant Hub —
for every injected hash, clock, similarity calculator, enrichment and
thresholds. -/
theorem c2_cardinality (md5f : String → String) (now : Nat)
    (fb : String → List String → ℚ → Option String × ℚ)
    (onto : List String) (tc ta : ℚ) :
    OntologyMatcher.classifyLemmas ⟨md5f, now, fb, onto, tc, ta⟩
      ["corn", "has_disease", "helminthosporiose", "necrose", "vert_fonce"] "img1" =
      ([mkHub md5f now "corn" "plante" "img1" "http://example.org/ontology#corn" 1,
        mkHub md5f now "helminthosporiose" "maladie" "img1"
          "http://example.org/ontology#helminthosporiose" 1],
       [mkLink md5f now (Hub.generateHubKey md5f "corn" "plante")
          (Hub.generateHubKey md5f "helminthosporiose" "maladie") "has_disease" "img1" 1],
       [mkSatellite md5f now (Hub.generateHubKey md5f "helminthosporiose" "maladie")
          "symptome" "necrose" "img1" 0.95,
        mkSatellite md5f now (Hub.generateHubKey md5f "corn" "plante")
          "couleur" "vert_fonce" "img1" 0.95]) := by
  have hn := OntologyMatcher.classifyLemma_notlink ⟨md5f, now, fb, onto, tc, ta⟩
    "necrose" (by decide) (by decide)
  have hv := OntologyMatcher.classifyLemma_notlink ⟨md5f, now, fb, onto, tc, ta⟩
    "vert_fonce" (by decide) (by decide)
  simp only [OntologyMatcher.classifyLemmas, OntologyMatcher.phase1, List.foldl,
    OntologyMatcher.phase1Step, hn, hv]
  rfl

/-- C3 counterexample: on `["corn", "helminthosporiose", "rouille"]` the hub
list of the classification output contains two problem Hubs (both disease
lemmas append a Hub; only the slot is overwritten), so at most one problem
Hub does not hold. -/
theorem c3_counterexample :
    ((OntologyMatcher.classifyLemmas OntologyMatcher.ctxA
        ["corn", "helminthosporiose", "rouille"] "img1").1.countP
      (fun h => h.entity_type == "maladie" || h.entity_type == "ravageur") = 2) ∧
    ¬ ((OntologyMatcher.classifyLemmas OntologyMatcher.ctxA
        ["corn", "helminthosporiose", "rouille"] "img1").1.countP
      (fun h => h.entity_type == "maladie" || h.entity_type == "ravageur") ≤ 1) := by
  constructor
  · decide
  · decide

/-- C3 amended: classification tracks at most one problem-hub slot,
last-one-wins — the slot equals the Hub of the last lemma directly
classified as a disease or pest, and the Link created (when any) targets
that slot — but every problem lemma still appends its Hub to the output hub
list, so the output may contain several problem Hubs. -/
theorem c3_last_problem_wins (ctx : OntologyMatcher.Ctx) (lemmas : List String) (src : String) :
    ((OntologyMatcher.phase1 ctx src lemmas).probleme_hub =
      (OntologyMatcher.lastProblem ctx lemmas).map (OntologyMatcher.problemHubOf ctx src)) ∧
    (∀ l ∈ (OntologyMatcher.classifyLemmas ctx lemmas src).2.1,
      ∃ q, (OntologyMatcher.phase1 ctx src lemmas).probleme_hub = some q ∧
        l.hub_target_key = q.hub_key) := by
  refine ⟨OntologyMatcher.phase1_probleme_slot ctx src lemmas, ?_⟩
  intro l hl
  have hlinks : (OntologyMatcher.classifyLemmas ctx lemmas src).2.1 =
      OntologyMatcher.phase2Links ctx src (OntologyMatcher.phase1 ctx src lemmas) := rfl
  rw [hlinks] at hl
  unfold OntologyMatcher.phase2Links at hl
  rcases hp : (OntologyMatcher.phase1 ctx src lemmas).plante_hub with - | p <;> rw [hp] at hl
  · cases hl
  · rcases hq : (OntologyMatcher.phase1 ctx src lemmas).probleme_hub with - | q <;>
      rw [hq] at hl
    · cases hl
    · refine ⟨q, rfl, ?_⟩
      have := List.mem_singleton.mp hl
      rw [this]
      rfl

/-- C3 witness: on `["corn", "helminthosporiose", "rouille"]` the created
Link targets the Hub of the last problem lemma `rouille`. -/
theorem c3_last_problem_wins_witness :
    ∃ q, (OntologyMatcher.phase1 OntologyMatcher.ctxA "img1"
        ["corn", "helminthosporiose", "rouille"]).probleme_hub = some q ∧
      (mkLink id 0 (Hub.generateHubKey id "corn" "plante")
        (Hub.generateHubKey id "rouille" "maladie")
        "has_disease" "img1" 1).hub_target_key = q.hub_key :=
  (c3_last_problem_wins OntologyMatcher.ctxA
    ["corn", "helminthosporiose", "rouille"] "img1").2
    (mkLink id 0 (Hub.generateHubKey id "corn" "plante")
      (Hub.generateHubKey id "rouille" "maladie") "has_disease" "img1" 1)
    (by decide)

/-! ## Claim theorems for the ontology validator -/

/-- C6: `validate_term` normalizes the input and returns the exact match when
present; else the first category entry in iteration order for which one
string is a substring of the other; else whatever the fuzzy
`difflib.get_close_matches` fallback (cutoff 0.6 by default) yields; else
`None`.  In particular `necrose_severe` validated against the symptom
category returns `necrose` through the substring step for every fuzzy
oracle — the fuzzy fallback is never consulted. -/
theorem c6_validate_term_cascade
    (close_matches : String → List String → ℚ → Option String)
    (value : String) (valid_terms : List String) (cutoff : ℚ)
    (hne : value ≠ "") :
    ((OntologyValidator.normalize_value value ∈ valid_terms →
        OntologyValidator.validate_term close_matches value valid_terms cutoff =
          some (OntologyValidator.normalize_value value)) ∧
     (∀ t, ¬ OntologyValidator.normalize_value value ∈ valid_terms →
        valid_terms.find? (fun u =>
          strContainsSub (OntologyValidator.normalize_value value) u ||
          strContainsSub u (OntologyValidator.normalize_value value)) = some t →
        OntologyValidator.validate_term close_matches value valid_terms cutoff = some t) ∧
     (¬ OntologyValidator.normalize_value value ∈ valid_terms →
        valid_terms.find? (fun u =>
          strContainsSub (OntologyValidator.normalize_value value) u ||
          strContainsSub u (OntologyValidator.normalize_value value)) = none →
        OntologyValidator.validate_term close_matches value valid_terms cutoff =
          close_matches (OntologyValidator.normalize_value value) valid_terms cutoff)) ∧
    (∀ cm2 : String → List String → ℚ → Option String,
      OntologyValidator.validate_term cm2 "necrose_severe"
        OntologyValidator.SATELLITES_symptomes 0.6 = some "necrose") := by
  refine ⟨⟨?_, ?_, ?_⟩, ?_⟩
  · intro hv
    have hc : valid_terms.contains (OntologyValidator.normalize_value value) = true :=
      (containsIffMem _ _).mpr hv
    simp only [OntologyValidator.validate_term, if_neg hne, hc]
    simp
  · intro t hv hfind
    have hc : valid_terms.contains (OntologyValidator.normalize_value value) = false :=
      (containsFalseIffNotMem _ _).mpr hv
    simp only [OntologyValidator.validate_term, if_neg hne, hc, hfind]
    simp
  · intro hv hfind
    have hc : valid_terms.contains (OntologyValidator.normalize_value value) = false :=
      (containsFalseIffNotMem _ _).mpr hv
    simp only [OntologyValidator.validate_term, if_neg hne, hc, hfind]
    simp
  · intro cm2
    rfl

/-- C6 witness: validating `necrose` against the symptom category at the
default cutoff yields the exact match `necrose`. -/
theorem c6_validate_term_cascade_witness :
    OntologyValidator.validate_term (fun _ _ _ => none) "necrose"
      OntologyValidator.SATELLITES_symptomes 0.6 = some "necrose" := by
  have h := (c6_validate_term_cascade (fun _ _ _ => none) "necrose"
    OntologyValidator.SATELLITES_symptomes 0.6 (by decide)).1.1 (by decide)
  exact h

/-- C7 counterexample: `validate_term` itself never consults the alias
table: `validate_term("mais", plant_category)` and
`validate_term("maïs", plant_category)` both return the plant-list entry
`mais` through the exact-match step (here with a fuzzy oracle that is never
reached), not the canonical identifier `corn`. -/
theorem c7_counterexample :
    OntologyValidator.validate_term (fun _ _ _ => none) "mais"
      OntologyValidator.HUBS_plantes 0.6 = some "mais" ∧
    OntologyValidator.validate_term (fun _ _ _ => none) "maïs"
      OntologyValidator.HUBS_plantes 0.6 = some "mais" ∧
    ¬ (some "mais" = (some "corn" : Option String)) := by
  refine ⟨by decide, by decide, by decide⟩

/-- C7 amended: the alias table lives in `identify_plant`, which resolves
both `mais` and `maïs` to the canonical identifier `corn`; `validate_term`
against the plant category returns the normalized localized name `mais`
itself (exact match), for every fuzzy oracle. -/
theorem c7_alias_resolution (cm : String → List String → ℚ → Option String) :
    OntologyValidator.identify_plant cm "mais" = some "corn" ∧
    OntologyValidator.identify_plant cm "maïs" = some "corn" ∧
    OntologyValidator.validate_term cm "mais" OntologyValidator.HUBS_plantes 0.6 =
      some "mais" ∧
    OntologyValidator.validate_term cm "maïs" OntologyValidator.HUBS_plantes 0.6 =
      some "mais" := by
  refine ⟨rfl, rfl, rfl, rfl⟩

/-! ## Claim theorems for the Data Vault generator -/

theorem isPrefixOf_append (a : List Char) :
    ∀ (b c : List Char), a.isPrefixOf b = true → a.isPrefixOf (b ++ c) = true := by
  induction a with
  | nil => intro b c h; cases b ++ c <;> rfl
  | cons x xs ih =>
    intro b c h
    cases b with
    | nil => cases h
    | cons y ys =>
      simp only [List.cons_append, List.isPrefixOf, Bool.and_eq_true] at h ⊢
      exact ⟨h.1, ih ys c h.2⟩

/-- C10: `validate_schema` is read-only: each of the four checks, and the
full validation run, leave the schema object (every record of every list and
the metadata) unchanged. -/
theorem c10_validate_schema_readonly (s : DataVaultSchema) :
    (DataVaultGenerator.check_key_uniqueness s).1 = s ∧
    (DataVaultGenerator.check_referential_integrity s).1 = s ∧
    (DataVaultGenerator.check_confidence_scores s).1 = s ∧
    (DataVaultGenerator.check_structural_constraints s).1 = s ∧
    (DataVaultGenerator.validate_schema_run s).1 = s :=
  ⟨rfl, rfl, rfl, rfl, rfl⟩

/-- C9: for every schema containing a Link whose target key matches no Hub
key, `validate_schema` returns at least one WARNING-class diagnostic (no
exception is possible: the embedding is total), and the schema remains
exportable — its dictionary export is defined and preserves the number of
hubs, links and satellites. -/
theorem c9_referential_warning (s : DataVaultSchema) (l : Link)
    (hl : l ∈ s.links)
    (hdangling : ∀ h ∈ s.hubs, ¬ h.hub_key = l.hub_target_key) :
    (∃ d ∈ DataVaultGenerator.validate_schema s,
      "WARNING".toList.isPrefixOf d.toList = true) ∧
    s.toDict.hubs.length = s.hubs.length ∧
    s.toDict.links.length = s.links.length ∧
    s.toDict.satellites.length = s.satellites.length := by
  refine ⟨?_, by simp [DataVaultSchema.toDict], by simp [DataVaultSchema.toDict],
    by simp [DataVaultSchema.toDict]⟩
  have hcontains : (s.hubs.map (fun h => h.hub_key)).contains l.hub_target_key = false := by
    rw [containsFalseIffNotMem]
    simp only [List.mem_map]
    rintro ⟨h, hh, hk⟩
    exact hdangling h hh hk
  refine ⟨"WARNING: Link " ++ pyTake l.link_key 8 ++ "... référence un Hub target invalide",
    ?_, ?_⟩
  · have hmem2 : "WARNING: Link " ++ pyTake l.link_key 8 ++
        "... référence un Hub target invalide" ∈
        (DataVaultGenerator.check_referential_integrity s).2 := by
      unfold DataVaultGenerator.check_referential_integrity
      simp only [List.mem_append]
      left
      rw [List.mem_flatten]
      refine ⟨(if (s.hubs.map (fun h => h.hub_key)).contains l.hub_source_key then [] else
          ["WARNING: Link " ++ pyTake l.link_key 8 ++ "... référence un Hub source invalide"]) ++
        (if (s.hubs.map (fun h => h.hub_key)).contains l.hub_target_key then [] else
          ["WARNING: Link " ++ pyTake l.link_key 8 ++ "... référence un Hub target invalide"]),
        List.mem_map_of_mem _ hl, ?_⟩
      rw [hcontains]
      simp
    unfold DataVaultGenerator.validate_schema DataVaultGenerator.validate_schema_run
    simp only [List.mem_append]
    left
    left
    right
    exact hmem2
  · have h1 : "WARNING".toList.isPrefixOf ("WARNING: Link ").toList = true := by decide
    have h2 := isPrefixOf_append "WARNING".toList ("WARNING: Link ").toList
      (pyTake l.link_key 8).toList h1
    have h3 := isPrefixOf_append "WARNING".toList
      (("WARNING: Link ").toList ++ (pyTake l.link_key 8).toList)
      ("... référence un Hub target invalide").toList h2
    have hdata : ("WARNING: Link " ++ pyTake l.link_key 8 ++
        "... référence un Hub target invalide").toList =
        (("WARNING: Link ").toList ++ (pyTake l.link_key 8).toList) ++
        ("... référence un Hub target invalide").toList := by
      show ("WARNING: Link " ++ pyTake l.link_key 8 ++
        "... référence un Hub target invalide").data = _
      rw [String.data_append, String.data_append]
      rfl
    rw [hdata]
    exact h3

/-- C9 witness: a schema with one Link and no Hubs. -/
theorem c9_referential_warning_witness :
    (∃ d ∈ DataVaultGenerator.validate_schema
        { hubs := [], links := [mkLink id 0 "k1" "k2" "rel" "img" 1],
          satellites := [], metadata := [] },
      "WARNING".toList.isPrefixOf d.toList = true) ∧
    (DataVaultSchema.toDict
        { hubs := [], links := [mkLink id 0 "k1" "k2" "rel" "img" 1],
          satellites := [], metadata := [] }).hubs.length =
      (({ hubs := [], links := [mkLink id 0 "k1" "k2" "rel" "img" 1],
          satellites := [], metadata := [] } : DataVaultSchema)).hubs.length ∧
    (DataVaultSchema.toDict
        { hubs := [], links := [mkLink id 0 "k1" "k2" "rel" "img" 1],
          satellites := [], metadata := [] }).links.length =
      (({ hubs := [], links := [mkLink id 0 "k1" "k2" "rel" "img" 1],
          satellites := [], metadata := [] } : DataVaultSchema)).links.length ∧
    (DataVaultSchema.toDict
        { hubs := [], links := [mkLink id 0 "k1" "k2" "rel" "img" 1],
          satellites := [], metadata := [] }).satellites.length =
      (({ hubs := [], links := [mkLink id 0 "k1" "k2" "rel" "img" 1],
          satellites := [], metadata := [] } : DataVaultSchema)).satellites.length :=
  c9_referential_warning
    { hubs := [], links := [mkLink id 0 "k1" "k2" "rel" "img" 1],
      satellites := [], metadata := [] }
    (mkLink id 0 "k1" "k2" "rel" "img" 1) (by decide) (by decide)

/-! ## Claim theorems for the similarity calculator -/

namespace SimilarityCalculator

theorem dotProduct_replicate_zero (n : Nat) :
    dotProduct (List.replicate n (0:ℚ)) (List.replicate n 0) = 0 := by
  induction n with
  | zero => rfl
  | succ k ih =>
    simp only [List.replicate_succ, dotProduct, List.zipWith_cons_cons, List.sum_cons] at ih ⊢
    rw [ih]
    norm_num

theorem cosineSimilarity_zero_left (v w : List ℚ) (h : normSq v = 0) :
    cosineSimilarity v w = 0 := by
  unfold cosineSimilarity
  rw [if_pos (Or.inl h)]

end SimilarityCalculator

/-- C4 counterexample: with a fetch that fails on `"a"` and returns the
non-zero vector `[1]` on `"b"`, the fetch failure yields the zero vector,
the embedding of `"b"` is non-zero, and the semantic similarity of `"a"`
and `"b"` is 0.5, not 0 — the cosine guard returns 0 whenever either norm
is zero and the remap sends 0 to 0.5. -/
theorem c4_counterexample :
    ((fun s => if s = "a" then none else some [1]) : String → Option (List ℚ)) "a" = none ∧
    ¬ SimilarityCalculator.normSq (SimilarityCalculator.getEmbedding
        (fun s => if s = "a" then none else some [1]) "b") = 0 ∧
    SimilarityCalculator.semanticSimilarity
      (fun s => if s = "a" then none else some [1]) "a" "b" = 1/2 ∧
    ¬ ((1:ℝ)/2 = 0) := by
  refine ⟨rfl, ?_, ?_, by norm_num⟩
  · show ¬ SimilarityCalculator.normSq [1] = 0
    simp [SimilarityCalculator.normSq, SimilarityCalculator.dotProduct]
  unfold SimilarityCalculator.semanticSimilarity
  rw [if_neg (by decide : ¬ (("a":String) = "" ∨ ("b":String) = ""))]
  have hz : SimilarityCalculator.normSq (SimilarityCalculator.getEmbedding
      (fun s => if s = "a" then none else some [1]) "a") = 0 :=
    SimilarityCalculator.dotProduct_replicate_zero 384
  rw [SimilarityCalculator.cosineSimilarity_zero_left _ _ hz]
  norm_num

/-- C4 amended: an embedding fetch failure yields the 384-dimensional zero
vector, and the semantic similarity of a nonempty string whose embedding is
the zero vector is 0.5 against every nonempty string — whether the other
embedding is zero or non-zero (the cosine helper returns 0 when either norm
is zero, and the `[-1,1] → [0,1]` remap sends 0 to 0.5). -/
theorem c4_zero_embedding (fetch : String → Option (List ℚ)) (s1 s2 : String)
    (h1 : ¬ s1 = "") (h2 : ¬ s2 = "")
    (hz : SimilarityCalculator.normSq (SimilarityCalculator.getEmbedding fetch s1) = 0) :
    SimilarityCalculator.semanticSimilarity fetch s1 s2 = 1/2 ∧
    (∀ t, fetch t = none →
      SimilarityCalculator.getEmbedding fetch t = List.replicate 384 0) := by
  constructor
  · unfold SimilarityCalculator.semanticSimilarity
    rw [if_neg (not_or.mpr ⟨h1, h2⟩)]
    rw [SimilarityCalculator.cosineSimilarity_zero_left _ _ hz]
    norm_num
  · intro t ht
    unfold SimilarityCalculator.getEmbedding
    rw [ht]

/-- C4 witness: a fetch that always fails gives similarity 0.5 between two
nonempty strings. -/
theorem c4_zero_embedding_witness :
    SimilarityCalculator.semanticSimilarity (fun _ => none) "a" "b" = 1/2 ∧
    (∀ t, (fun _ => none : String → Option (List ℚ)) t = none →
      SimilarityCalculator.getEmbedding (fun _ => none) t = List.replicate 384 0) :=
  c4_zero_embedding (fun _ => none) "a" "b" (by decide) (by decide)
    (SimilarityCalculator.dotProduct_replicate_zero 384)

namespace SimilarityCalculator

theorem fbmGo_no_update (c : CalcCtx) (lem : String) (θ : ℝ) :
    ∀ (terms : List String) (b : Option String × ℝ),
    (∀ t ∈ terms, ¬ (b.2 < calculateSimilarity c lem t ∧ θ ≤ calculateSimilarity c lem t)) →
    findBestMatchGo c lem θ b terms = b := by
  intro terms
  induction terms with
  | nil => intro b _; rfl
  | cons t0 ts ih =>
    intro b h
    simp only [findBestMatchGo]
    rw [if_neg (h t0 (by simp))]
    exact ih b (fun t ht => h t (by simp [ht]))

theorem fbmGo_ge (c : CalcCtx) (lem : String) (θ : ℝ) :
    ∀ (terms : List String) (b : Option String × ℝ),
    b.2 ≤ (findBestMatchGo c lem θ b terms).2 := by
  intro terms
  induction terms with
  | nil => intro b; exact le_refl _
  | cons t0 ts ih =>
    intro b
    simp only [findBestMatchGo]
    by_cases hc : b.2 < calculateSimilarity c lem t0 ∧ θ ≤ calculateSimilarity c lem t0
    · rw [if_pos hc]
      exact le_trans (le_of_lt hc.1) (ih (some t0, calculateSimilarity c lem t0))
    · rw [if_neg hc]
      exact ih b

theorem fbmGo_max (c : CalcCtx) (lem : String) (θ : ℝ) :
    ∀ (terms : List String) (b : Option String × ℝ),
    ∀ t ∈ terms, θ ≤ calculateSimilarity c lem t →
      calculateSimilarity c lem t ≤ (findBestMatchGo c lem θ b terms).2 := by
  intro terms
  induction terms with
  | nil => intro b t ht; cases ht
  | cons t0 ts ih =>
    intro b t ht hθ
    simp only [findBestMatchGo]
    rcases List.mem_cons.mp ht with ht | ht
    · subst ht
      by_cases hc : b.2 < calculateSimilarity c lem t ∧ θ ≤ calculateSimilarity c lem t
      · rw [if_pos hc]
        exact fbmGo_ge c lem θ ts (some t, calculateSimilarity c lem t)
      · rw [if_neg hc]
        have hle : calculateSimilarity c lem t ≤ b.2 := by
          rcases not_and_or.mp hc with hx | hx
          · exact le_of_not_lt hx
          · exact absurd hθ hx
        exact le_trans hle (fbmGo_ge c lem θ ts b)
    · by_cases hc : b.2 < calculateSimilarity c lem t0 ∧ θ ≤ calculateSimilarity c lem t0
      · rw [if_pos hc]
        exact ih (some t0, calculateSimilarity c lem t0) t ht hθ
      · rw [if_neg hc]
        exact ih b t ht hθ

theorem fbmGo_found (c : CalcCtx) (lem : String) (θ : ℝ) :
    ∀ (terms : List String) (b : Option String × ℝ),
    (∃ t ∈ terms, b.2 < calculateSimilarity c lem t ∧ θ ≤ calculateSimilarity c lem t) →
    ∃ t pre post, terms = pre ++ t :: post ∧
      findBestMatchGo c lem θ b terms = (some t, calculateSimilarity c lem t) ∧
      θ ≤ calculateSimilarity c lem t ∧ b.2 < calculateSimilarity c lem t ∧
      ∀ u ∈ pre, calculateSimilarity c lem u < calculateSimilarity c lem t := by
  intro terms
  induction terms with
  | nil => rintro b ⟨t, ht, -⟩; cases ht
  | cons t0 ts ih =>
    intro b hex
    simp only [findBestMatchGo]
    by_cases hc : b.2 < calculateSimilarity c lem t0 ∧ θ ≤ calculateSimilarity c lem t0
    · rw [if_pos hc]
      by_cases hex2 : ∃ t ∈ ts, calculateSimilarity c lem t0 < calculateSimilarity c lem t ∧
          θ ≤ calculateSimilarity c lem t
      · obtain ⟨t, pre, post, hts, hgo, hθ2, hgt, hpre⟩ :=
          ih (some t0, calculateSimilarity c lem t0) hex2
        refine ⟨t, t0 :: pre, post, by rw [hts, List.cons_append], hgo, hθ2,
          lt_trans hc.1 hgt, ?_⟩
        intro u hu
        rcases List.mem_cons.mp hu with hu | hu
        · rw [hu]; exact hgt
        · exact hpre u hu
      · push_neg at hex2
        have hstop : findBestMatchGo c lem θ (some t0, calculateSimilarity c lem t0) ts =
            (some t0, calculateSimilarity c lem t0) := by
          apply fbmGo_no_update
          intro t ht
          rintro ⟨hlt, hθ2⟩
          exact absurd hθ2 (not_le.mpr (by simpa using hex2 t ht hlt))
        refine ⟨t0, [], ts, rfl, hstop, hc.2, hc.1, by intro u hu; cases hu⟩
    · rw [if_neg hc]
      have hex3 : ∃ t ∈ ts, b.2 < calculateSimilarity c lem t ∧
          θ ≤ calculateSimilarity c lem t := by
        obtain ⟨t, ht, hcond⟩ := hex
        rcases List.mem_cons.mp ht with ht | ht
        · rw [ht] at hcond; exact absurd hcond hc
        · exact ⟨t, ht, hcond⟩
      obtain ⟨t, pre, post, hts, hgo, hθ2, hgt, hpre⟩ := ih b hex3
      refine ⟨t, t0 :: pre, post, by rw [hts, List.cons_append], hgo, hθ2, hgt, ?_⟩
      intro u hu
      rcases List.mem_cons.mp hu with hu | hu
      · rw [hu]
        rcases not_and_or.mp hc with hx | hx
        · exact lt_of_le_of_lt (le_of_not_lt hx) hgt
        · exact lt_of_lt_of_le (lt_of_not_le hx) hθ2
      · exact hpre u hu

end SimilarityCalculator

/-- C5 counterexample: with the lexical strategy, the candidate list `[""]`
and threshold 0, the single candidate scores 0, which meets the threshold
(`0 >= 0`), yet the strictly-greater comparator never selects it:
`find_best_match` returns `(None, 0.0)` instead of the highest-scoring
candidate. -/
theorem c5_counterexample :
    (0:ℝ) ≤ SimilarityCalculator.calculateSimilarity
      ⟨"lexical", fun _ _ => 0, fun _ => none⟩ "a" "" ∧
    ("" : String) ∈ [""] ∧
    SimilarityCalculator.findBestMatch
      ⟨"lexical", fun _ _ => 0, fun _ => none⟩ "a" [""] 0 = (none, 0) := by
  have hsim : SimilarityCalculator.calculateSimilarity
      ⟨"lexical", fun _ _ => 0, fun _ => none⟩ "a" "" = ((0:ℚ) : ℝ) := by
    unfold SimilarityCalculator.calculateSimilarity
    rw [if_neg (by decide :
      ¬ SimilarityCalculator.normalizeString "a" = SimilarityCalculator.normalizeString "")]
    rw [if_pos rfl]
    have hlex : SimilarityCalculator.lexicalSimilarity (fun _ _ => 0) 
        (SimilarityCalculator.normalizeString "a")
        (SimilarityCalculator.normalizeString "") = 0 := by
      unfold SimilarityCalculator.lexicalSimilarity
      rw [if_pos (Or.inr (by decide))]
    rw [hlex]
  refine ⟨by rw [hsim]; norm_num, by decide, ?_⟩
  unfold SimilarityCalculator.findBestMatch
  rw [if_neg (by decide : ¬ ([""] : List String) = [])]
  simp only [SimilarityCalculator.findBestMatchGo, hsim]
  rw [if_neg (by norm_num)]

/-- C5 amended: `find_best_match` is a linear scan with a strictly-greater
comparator: it returns `(None, 0.0)` when no candidate has a score that both
meets the threshold and is strictly positive (in particular a 0-scoring
candidate is never selected, even when 0 meets the threshold); otherwise it
returns the first candidate attaining the maximal score, together with that
score — every earlier candidate scores strictly less, so the first candidate
wins ties. -/
theorem c5_find_best_match (c : SimilarityCalculator.CalcCtx) (lem : String)
    (terms : List String) (θ : ℝ) :
    ((∀ t ∈ terms, ¬ (θ ≤ SimilarityCalculator.calculateSimilarity c lem t ∧
        0 < SimilarityCalculator.calculateSimilarity c lem t)) →
      SimilarityCalculator.findBestMatch c lem terms θ = (none, 0)) ∧
    ((∃ t ∈ terms, θ ≤ SimilarityCalculator.calculateSimilarity c lem t ∧
        0 < SimilarityCalculator.calculateSimilarity c lem t) →
      ∃ t pre post, terms = pre ++ t :: post ∧
        SimilarityCalculator.findBestMatch c lem terms θ =
          (some t, SimilarityCalculator.calculateSimilarity c lem t) ∧
        (∀ u ∈ terms, SimilarityCalculator.calculateSimilarity c lem u ≤
          SimilarityCalculator.calculateSimilarity c lem t) ∧
        (∀ u ∈ pre, SimilarityCalculator.calculateSimilarity c lem u <
          SimilarityCalculator.calculateSimilarity c lem t)) := by
  constructor
  · intro h
    unfold SimilarityCalculator.findBestMatch
    by_cases hterms : terms = []
    · rw [if_pos hterms]
    · rw [if_neg hterms]
      apply SimilarityCalculator.fbmGo_no_update
      intro t ht
      rintro ⟨hlt, hθ⟩
      exact h t ht ⟨hθ, hlt⟩
  · rintro ⟨t1, ht1, hθ1, hpos1⟩
    have hterms : ¬ terms = [] := by
      intro he; rw [he] at ht1; cases ht1
    have hfb : SimilarityCalculator.findBestMatch c lem terms θ =
        SimilarityCalculator.findBestMatchGo c lem θ (none, 0) terms := by
      unfold SimilarityCalculator.findBestMatch
      rw [if_neg hterms]
    obtain ⟨t, pre, post, hts, hgo, hθ2, hgt, hpre⟩ :=
      SimilarityCalculator.fbmGo_found c lem θ terms (none, 0) ⟨t1, ht1, hpos1, hθ1⟩
    refine ⟨t, pre, post, hts, by rw [hfb, hgo], ?_, hpre⟩
    intro u hu
    by_cases hθu : θ ≤ SimilarityCalculator.calculateSimilarity c lem u
    · have := SimilarityCalculator.fbmGo_max c lem θ terms (none, 0) u hu hθu
      rw [hgo] at this
      exact this
    · exact le_trans (le_of_not_le hθu) hθ2

/-- C5 witness: with threshold 0.5 and the exact-match candidate, the first
(and only) candidate is returned with its score. -/
theorem c5_find_best_match_witness :
    ∃ t pre post, (["corn"] : List String) = pre ++ t :: post ∧
      SimilarityCalculator.findBestMatch
        ⟨"lexical", fun _ _ => 0, fun _ => none⟩ "corn" ["corn"] (1/2) =
        (some t, SimilarityCalculator.calculateSimilarity
          ⟨"lexical", fun _ _ => 0, fun _ => none⟩ "corn" t) ∧
      (∀ u ∈ (["corn"] : List String),
        SimilarityCalculator.calculateSimilarity
          ⟨"lexical", fun _ _ => 0, fun _ => none⟩ "corn" u ≤
        SimilarityCalculator.calculateSimilarity
          ⟨"lexical", fun _ _ => 0, fun _ => none⟩ "corn" t) ∧
      (∀ u ∈ pre, SimilarityCalculator.calculateSimilarity
          ⟨"lexical", fun _ _ => 0, fun _ => none⟩ "corn" u <
        SimilarityCalculator.calculateSimilarity
          ⟨"lexical", fun _ _ => 0, fun _ => none⟩ "corn" t) :=
  (c5_find_best_match ⟨"lexical", fun _ _ => 0, fun _ => none⟩ "corn" ["corn"] (1/2)).2
    ⟨"corn", by decide, by
      have h1 : SimilarityCalculator.calculateSimilarity
          ⟨"lexical", fun _ _ => 0, fun _ => none⟩ "corn" "corn" = 1 := by
        unfold SimilarityCalculator.calculateSimilarity
        rw [if_pos rfl]
      rw [h1]
      norm_num⟩

namespace DataVaultGenerator

theorem dedupHub_members : ∀ (l : List Hub) (p : List Hub × List String),
    ∀ h ∈ (l.foldl dedupHubStep p).1, h ∈ p.1 ∨ h ∈ l := by
  intro l
  induction l with
  | nil => intro p h hm; exact Or.inl hm
  | cons h0 tl ih =>
    intro p h hm
    simp only [List.foldl] at hm
    unfold dedupHubStep at hm
    by_cases hc : p.2.contains h0.hub_key
    · rw [if_pos hc] at hm
      rcases ih p h hm with hx | hx
      · exact Or.inl hx
      · exact Or.inr (List.mem_cons.mpr (Or.inr hx))
    · rw [if_neg hc] at hm
      rcases ih _ h hm with hx | hx
      · rcases List.mem_append.mp hx with hy | hy
        · exact Or.inl hy
        · exact Or.inr (List.mem_cons.mpr (Or.inl (List.mem_singleton.mp hy)))
      · exact Or.inr (List.mem_cons.mpr (Or.inr hx))

/-- Invariant of the hub-merging loop: the seen-key set covers the keys of
the accumulated hubs, and each key occurs at most once among them. -/
def HubAccInv (p : List Hub × List String) : Prop :=
  (∀ k ∈ p.1.map (fun h => h.hub_key), k ∈ p.2) ∧
  (∀ K, p.1.countP (fun h => h.hub_key == K) ≤ 1)

theorem dedupHubStep_inv (p : List Hub × List String) (h0 : Hub)
    (hp : HubAccInv p) : HubAccInv (dedupHubStep p h0) := by
  unfold dedupHubStep
  by_cases hc : p.2.contains h0.hub_key
  · rw [if_pos hc]; exact hp
  · rw [if_neg hc]
    have hns : ¬ h0.hub_key ∈ p.2 := (containsFalseIffNotMem _ _).mp (Bool.eq_false_iff.mpr hc)
    constructor
    · intro k hk
      rw [List.map_append, List.mem_append] at hk
      rcases hk with hk | hk
      · exact List.mem_append.mpr (Or.inl (hp.1 k hk))
      · simp only [List.map_cons, List.map_nil, List.mem_singleton] at hk
        exact List.mem_append.mpr (Or.inr (by rw [hk]; exact List.mem_singleton.mpr rfl))
    · intro K
      rw [List.countP_append]
      by_cases hK : h0.hub_key = K
      · have hzero : p.1.countP (fun h => h.hub_key == K) = 0 := by
          rw [List.countP_eq_zero]
          intro h hm
          simp only [beq_iff_eq]
          intro hkey
          apply hns
          have hmem : h.hub_key ∈ p.2 := hp.1 _ (List.mem_map_of_mem (fun h => h.hub_key) hm)
          rw [hK, ← hkey]
          exact hmem
        rw [hzero]
        simp [List.countP_cons, hK]
      · have : ([h0].countP (fun h => h.hub_key == K)) = 0 := by
          simp [List.countP_cons, hK]
        rw [this]
        simpa using hp.2 K
  
theorem dedupHub_inv : ∀ (l : List Hub) (p : List Hub × List String),
    HubAccInv p → HubAccInv (l.foldl dedupHubStep p) := by
  intro l
  induction l with
  | nil => intro p hp; exact hp
  | cons h0 tl ih =>
    intro p hp
    simp only [List.foldl]
    exact ih _ (dedupHubStep_inv p h0 hp)

theorem dedupHub_exists : ∀ (l : List Hub) (p : List Hub × List String) (K : String),
    ((∃ h ∈ p.1, h.hub_key = K) ∨ (¬ K ∈ p.2 ∧ ∃ h ∈ l, h.hub_key = K)) →
    ∃ h ∈ (l.foldl dedupHubStep p).1, h.hub_key = K := by
  intro l
  induction l with
  | nil =>
    intro p K hyp
    rcases hyp with hyp | ⟨-, h, hm, -⟩
    · exact hyp
    · cases hm
  | cons h0 tl ih =>
    intro p K hyp
    simp only [List.foldl]
    unfold dedupHubStep
    by_cases hc : p.2.contains h0.hub_key
    · rw [if_pos hc]
      apply ih
      rcases hyp with hyp | ⟨hK, h, hm, hkey⟩
      · exact Or.inl hyp
      · rcases List.mem_cons.mp hm with hm | hm
        · exfalso
          apply hK
          rw [← hkey, hm]
          exact (containsIffMem _ _).mp hc
        · exact Or.inr ⟨hK, h, hm, hkey⟩
    · rw [if_neg hc]
      apply ih
      rcases hyp with hyp | ⟨hK, h, hm, hkey⟩
      · obtain ⟨h, hm, hkey⟩ := hyp
        exact Or.inl ⟨h, List.mem_append.mpr (Or.inl hm), hkey⟩
      · rcases List.mem_cons.mp hm with hm | hm
        · refine Or.inl ⟨h0, List.mem_append.mpr (Or.inr (List.mem_singleton.mpr rfl)), ?_⟩
          rw [← hm]; exact hkey
        · by_cases hK0 : K = h0.hub_key
          · refine Or.inl ⟨h0, List.mem_append.mpr (Or.inr (List.mem_singleton.mpr rfl)), hK0.symm⟩
          · refine Or.inr ⟨?_, h, hm, hkey⟩
            rw [List.mem_append]
            rintro (hx | hx)
            · exact hK hx
            · exact hK0 (List.mem_singleton.mp hx)

theorem keepSatellite_all : ∀ (l : List Satellite) (p : List Satellite × List String),
    (l.foldl keepSatelliteStep p).1 = p.1 ++ l := by
  intro l
  induction l with
  | nil => intro p; simp
  | cons x tl ih =>
    intro p
    simp only [List.foldl]
    rw [ih]
    simp [keepSatelliteStep]

/-- The common shape of the two deduplicating loop bodies of
`merge_schemas`, abstracted over the record key: skip an element whose key
was already seen, else keep it and record its key.  `dedupHubStep` and
`dedupLinkStep` are definitionally instances of it. -/
def dedupByKeyStep {α : Type} (key : α → String) (p : List α × List String) (x : α) :
    List α × List String :=
  if p.2.contains (key x) then p else (p.1 ++ [x], p.2 ++ [key x])

theorem dedupHubStep_eq : dedupHubStep = dedupByKeyStep (fun h => h.hub_key) := rfl

theorem dedupLinkStep_eq : dedupLinkStep = dedupByKeyStep (fun l => l.link_key) := rfl

theorem dedupGen_extends {α : Type} (key : α → String) :
    ∀ (l : List α) (p : List α × List String),
    ∃ ex, (l.foldl (dedupByKeyStep key) p).1 = p.1 ++ ex := by
  intro l
  induction l with
  | nil => intro p; exact ⟨[], by simp⟩
  | cons x tl ih =>
    intro p
    simp only [List.foldl]
    by_cases hc : p.2.contains (key x) = true
    · have hstep : dedupByKeyStep key p x = p := by
        unfold dedupByKeyStep; rw [if_pos hc]
      rw [hstep]
      exact ih p
    · have hstep : dedupByKeyStep key p x = (p.1 ++ [x], p.2 ++ [key x]) := by
        unfold dedupByKeyStep; rw [if_neg hc]
      rw [hstep]
      obtain ⟨ex, hex⟩ := ih (p.1 ++ [x], p.2 ++ [key x])
      exact ⟨[x] ++ ex, by rw [hex]; simp⟩

/-- A record already retained for a key survives the rest of the loop: the
loop only ever appends. -/
theorem dedupGen_find_keep {α : Type} (key : α → String)
    (l : List α) (p : List α × List String) (K : String) (h : α)
    (hf : p.1.find? (fun x => key x == K) = some h) :
    (l.foldl (dedupByKeyStep key) p).1.find? (fun x => key x == K) = some h := by
  obtain ⟨ex, hex⟩ := dedupGen_extends key l p
  rw [hex, List.find?_append, hf]
  rfl

/-- Starting from an accumulator that holds no record and no seen key for
`K`, the record the loop retains for key `K` is exactly the first `K`-keyed
record of the input, in input order: the first occurrence of each key wins. -/
theorem dedupGen_find_first {α : Type} (key : α → String) :
    ∀ (l : List α) (p : List α × List String) (K : String),
    p.1.find? (fun x => key x == K) = none → ¬ K ∈ p.2 →
    (l.foldl (dedupByKeyStep key) p).1.find? (fun x => key x == K) =
      l.find? (fun x => key x == K) := by
  intro l
  induction l with
  | nil =>
    intro p K hf hK
    simpa using hf
  | cons x tl ih =>
    intro p K hf hK
    simp only [List.foldl]
    by_cases hq : key x = K
    · have hcne : ¬ p.2.contains (key x) = true := by
        rw [containsIffMem, hq]
        exact hK
      have hstep : dedupByKeyStep key p x = (p.1 ++ [x], p.2 ++ [key x]) := by
        unfold dedupByKeyStep; rw [if_neg hcne]
      rw [hstep]
      have hqx : (fun y => key y == K) x = true := by simp [hq]
      have hfx : (p.1 ++ [x]).find? (fun y => key y == K) = some x := by
        rw [List.find?_append, hf, @List.find?_cons_of_pos _ (fun y => key y == K) x [] hqx]
        rfl
      rw [dedupGen_find_keep key tl _ K x hfx,
        @List.find?_cons_of_pos _ (fun y => key y == K) x tl hqx]
    · have hqb : ¬ ((fun y => key y == K) x = true) := by simp [hq]
      by_cases hc : p.2.contains (key x) = true
      · have hstep : dedupByKeyStep key p x = p := by
          unfold dedupByKeyStep; rw [if_pos hc]
        rw [hstep, ih p K hf hK, @List.find?_cons_of_neg _ (fun y => key y == K) x tl hqb]
      · have hstep : dedupByKeyStep key p x = (p.1 ++ [x], p.2 ++ [key x]) := by
          unfold dedupByKeyStep; rw [if_neg hc]
        rw [hstep]
        have hf2 : (p.1 ++ [x]).find? (fun y => key y == K) = none := by
          rw [List.find?_append, hf, @List.find?_cons_of_neg _ (fun y => key y == K) x [] hqb,
            List.find?_nil]
          rfl
        have hK2 : ¬ K ∈ p.2 ++ [key x] := by
          rw [List.mem_append]
          rintro (h | h)
          · exact hK h
          · exact hq (List.mem_singleton.mp h).symm
        rw [ih _ K hf2 hK2, @List.find?_cons_of_neg _ (fun y => key y == K) x tl hqb]

theorem dedupGenStep_inv {α : Type} (key : α → String) (p : List α × List String) (x0 : α)
    (hp : (∀ k ∈ p.1.map key, k ∈ p.2) ∧ ∀ K, p.1.countP (fun x => key x == K) ≤ 1) :
    (∀ k ∈ (dedupByKeyStep key p x0).1.map key, k ∈ (dedupByKeyStep key p x0).2) ∧
    ∀ K, (dedupByKeyStep key p x0).1.countP (fun x => key x == K) ≤ 1 := by
  unfold dedupByKeyStep
  by_cases hc : p.2.contains (key x0)
  · rw [if_pos hc]; exact hp
  · rw [if_neg hc]
    have hns : ¬ key x0 ∈ p.2 := (containsFalseIffNotMem _ _).mp (Bool.eq_false_iff.mpr hc)
    constructor
    · intro k hk
      rw [List.map_append, List.mem_append] at hk
      rcases hk with hk | hk
      · exact List.mem_append.mpr (Or.inl (hp.1 k hk))
      · simp only [List.map_cons, List.map_nil, List.mem_singleton] at hk
        exact List.mem_append.mpr (Or.inr (by rw [hk]; exact List.mem_singleton.mpr rfl))
    · intro K
      rw [List.countP_append]
      by_cases hK : key x0 = K
      · have hzero : p.1.countP (fun x => key x == K) = 0 := by
          rw [List.countP_eq_zero]
          intro h hm
          simp only [beq_iff_eq]
          intro hkey
          apply hns
          have hmem : key h ∈ p.2 := hp.1 _ (List.mem_map_of_mem key hm)
          rw [hK, ← hkey]
          exact hmem
        rw [hzero]
        simp [List.countP_cons, hK]
      · have h1 : ([x0].countP (fun x => key x == K)) = 0 := by
          simp [List.countP_cons, hK]
        rw [h1]
        simpa using hp.2 K

/-- Each key occurs at most once among the records the loop retains. -/
theorem dedupGen_inv {α : Type} (key : α → String) :
    ∀ (l : List α) (p : List α × List String),
    ((∀ k ∈ p.1.map key, k ∈ p.2) ∧ ∀ K, p.1.countP (fun x => key x == K) ≤ 1) →
    ((∀ k ∈ (l.foldl (dedupByKeyStep key) p).1.map key,
        k ∈ (l.foldl (dedupByKeyStep key) p).2) ∧
      ∀ K, (l.foldl (dedupByKeyStep key) p).1.countP (fun x => key x == K) ≤ 1) := by
  intro l
  induction l with
  | nil => intro p hp; exact hp
  | cons x tl ih =>
    intro p hp
    simp only [List.foldl]
    exact ih _ (dedupGenStep_inv key p x hp)

/-- The three record streams of `merge_schemas` are the corresponding
deduplicating (or keeping) folds over the concatenation of the input
schemas' record lists, in input order. -/
theorem merge_components :
    ∀ (schemas : List DataVaultSchema) (acc : MergeAcc),
    (((schemas.foldl mergeStep acc).hubs, (schemas.foldl mergeStep acc).seen_hub_keys) =
      ((schemas.map (fun s => s.hubs)).flatten).foldl dedupHubStep
        (acc.hubs, acc.seen_hub_keys)) ∧
    (((schemas.foldl mergeStep acc).links, (schemas.foldl mergeStep acc).seen_link_keys) =
      ((schemas.map (fun s => s.links)).flatten).foldl dedupLinkStep
        (acc.links, acc.seen_link_keys)) ∧
    (((schemas.foldl mergeStep acc).satellites,
        (schemas.foldl mergeStep acc).seen_satellite_keys) =
      ((schemas.map (fun s => s.satellites)).flatten).foldl keepSatelliteStep
        (acc.satellites, acc.seen_satellite_keys)) := by
  intro schemas
  induction schemas with
  | nil => intro acc; exact ⟨rfl, rfl, rfl⟩
  | cons s rest ih =>
    intro acc
    have h := ih (mergeStep acc s)
    refine ⟨?_, ?_, ?_⟩
    · rw [List.map_cons, List.flatten_cons, List.foldl_append]
      exact h.1
    · rw [List.map_cons, List.flatten_cons, List.foldl_append]
      exact h.2.1
    · rw [List.map_cons, List.flatten_cons, List.foldl_append]
      exact h.2.2

end DataVaultGenerator

/-- Concrete input schemas for the merge witness: both carry the same
generated corn-plant Hub key and one Satellite each. -/
def mergeW1 : DataVaultSchema :=
  { hubs := [mkHub id 0 "corn" "plante" "img1" "uri" 1], links := [],
    satellites := [mkSatellite id 0 "corn_plante" "couleur" "vert" "img1" 1],
    metadata := [] }

/-- Second concrete input schema for the merge witness. -/
def mergeW2 : DataVaultSchema :=
  { hubs := [mkHub id 3 "corn" "plante" "img2" "uri" 1], links := [],
    satellites := [mkSatellite id 3 "corn_plante" "couleur" "vert" "img2" 1],
    metadata := [] }

/-- C8: `merge_schemas` deduplicates Hubs and Links by key across the input
schemas with the first occurrence of each key winning, and concatenates all
Satellites without deduplication.  For every input list of schemas and every
key: the merged hub list and the merged link list carry at most one record
per key, and the record surviving for a key is exactly the first record with
that key in the concatenation of the inputs (in input order); the merged
satellite list is that concatenation itself.  In particular, merging two
schemas whose corn-plant Hubs were built by the key generator (and whose
hubs collide on the corn key exactly when they are corn hubs of that entity
type) yields exactly one such Hub, while the Satellites of both schemas are
all preserved in order. -/
theorem c8_merge_dedup (md5f : String → String) (now : Nat) (et : String)
    (s1 s2 : DataVaultSchema)
    (h1 : ∃ h ∈ s1.hubs, h.business_key = "corn" ∧ h.entity_type = et)
    (hkeys : ∀ h ∈ s1.hubs ++ s2.hubs,
      ((h.business_key = "corn" ∧ h.entity_type = et) ↔
        h.hub_key = Hub.generateHubKey md5f "corn" et)) :
    (∀ (schemas : List DataVaultSchema) (K : String),
      ((DataVaultGenerator.merge_schemas now schemas).hubs.countP
          (fun h => h.hub_key == K) ≤ 1) ∧
      ((DataVaultGenerator.merge_schemas now schemas).hubs.find?
          (fun h => h.hub_key == K) =
        ((schemas.map (fun s => s.hubs)).flatten.find? (fun h => h.hub_key == K))) ∧
      ((DataVaultGenerator.merge_schemas now schemas).links.countP
          (fun l => l.link_key == K) ≤ 1) ∧
      ((DataVaultGenerator.merge_schemas now schemas).links.find?
          (fun l => l.link_key == K) =
        ((schemas.map (fun s => s.links)).flatten.find? (fun l => l.link_key == K))) ∧
      ((DataVaultGenerator.merge_schemas now schemas).satellites =
        (schemas.map (fun s => s.satellites)).flatten)) ∧
    ((DataVaultGenerator.merge_schemas now [s1, s2]).hubs.countP
        (fun h => h.business_key == "corn" && h.entity_type == et) = 1) ∧
    (DataVaultGenerator.merge_schemas now [s1, s2]).satellites =
      s1.satellites ++ s2.satellites := by
  refine ⟨?_, ?_, ?_⟩
  · intro schemas K
    obtain ⟨hH, hL, hS⟩ := DataVaultGenerator.merge_components schemas
      { hubs := [], links := [], satellites := [],
        seen_hub_keys := [], seen_link_keys := [], seen_satellite_keys := [] }
    have hhubs : (DataVaultGenerator.merge_schemas now schemas).hubs =
        ((schemas.map (fun s => s.hubs)).flatten.foldl
          DataVaultGenerator.dedupHubStep ([], [])).1 :=
      congrArg Prod.fst hH
    have hlinks : (DataVaultGenerator.merge_schemas now schemas).links =
        ((schemas.map (fun s => s.links)).flatten.foldl
          DataVaultGenerator.dedupLinkStep ([], [])).1 :=
      congrArg Prod.fst hL
    have hsats : (DataVaultGenerator.merge_schemas now schemas).satellites =
        ((schemas.map (fun s => s.satellites)).flatten.foldl
          DataVaultGenerator.keepSatelliteStep ([], [])).1 :=
      congrArg Prod.fst hS
    refine ⟨?_, ?_, ?_, ?_, ?_⟩
    · rw [hhubs]
      exact (DataVaultGenerator.dedupHub_inv _ ([], [])
        ⟨fun k hk => absurd hk (by simp), fun K2 => by simp⟩).2 K
    · rw [hhubs, DataVaultGenerator.dedupHubStep_eq]
      exact DataVaultGenerator.dedupGen_find_first (fun h : Hub => h.hub_key) _ ([], []) K
        rfl (by simp)
    · rw [hlinks, DataVaultGenerator.dedupLinkStep_eq]
      exact (DataVaultGenerator.dedupGen_inv (fun l : Link => l.link_key) _ ([], [])
        ⟨fun k hk => absurd hk (by simp), fun K2 => by simp⟩).2 K
    · rw [hlinks, DataVaultGenerator.dedupLinkStep_eq]
      exact DataVaultGenerator.dedupGen_find_first (fun l : Link => l.link_key) _ ([], []) K
        rfl (by simp)
    · rw [hsats, DataVaultGenerator.keepSatellite_all]
      simp
  · have hhub : (DataVaultGenerator.merge_schemas now [s1, s2]).hubs =
        (s2.hubs.foldl DataVaultGenerator.dedupHubStep
          (s1.hubs.foldl DataVaultGenerator.dedupHubStep ([], []))).1 := rfl
    rw [hhub]
    set pair1 := s1.hubs.foldl DataVaultGenerator.dedupHubStep
      (([], []) : List Hub × List String) with hpair1
    set pair2 := s2.hubs.foldl DataVaultGenerator.dedupHubStep pair1 with hpair2
    have hinv : DataVaultGenerator.HubAccInv pair2 := by
      apply DataVaultGenerator.dedupHub_inv
      apply DataVaultGenerator.dedupHub_inv
      exact ⟨fun k hk => absurd hk (by simp), fun K => by simp⟩
    have hmembers : ∀ h ∈ pair2.1, h ∈ s1.hubs ++ s2.hubs := by
      intro h hm
      rw [List.mem_append]
      rcases DataVaultGenerator.dedupHub_members s2.hubs pair1 h hm with hx | hx
      · rcases DataVaultGenerator.dedupHub_members s1.hubs ([], []) h hx with hy | hy
        · cases hy
        · exact Or.inl hy
      · exact Or.inr hx
    have hcongr : pair2.1.countP (fun h => h.business_key == "corn" && h.entity_type == et) =
        pair2.1.countP (fun h => h.hub_key == Hub.generateHubKey md5f "corn" et) := by
      apply List.countP_congr
      intro h hm
      have := hkeys h (hmembers h hm)
      simp only [Bool.and_eq_true, beq_iff_eq]
      exact this
    rw [hcongr]
    have hexists : ∃ h ∈ pair2.1, h.hub_key = Hub.generateHubKey md5f "corn" et := by
      apply DataVaultGenerator.dedupHub_exists
      left
      apply DataVaultGenerator.dedupHub_exists
      right
      refine ⟨fun hx => absurd hx (by simp), ?_⟩
      obtain ⟨h, hm, hp⟩ := h1
      exact ⟨h, hm, (hkeys h (List.mem_append.mpr (Or.inl hm))).mp hp⟩
    have hpos : 0 < pair2.1.countP (fun h => h.hub_key == Hub.generateHubKey md5f "corn" et) := by
      rw [List.countP_pos_iff]
      obtain ⟨h, hm, hk⟩ := hexists
      exact ⟨h, hm, by simp [beq_iff_eq, hk]⟩
    exact Nat.le_antisymm (hinv.2 (Hub.generateHubKey md5f "corn" et)) hpos
  · have hsat : (DataVaultGenerator.merge_schemas now [s1, s2]).satellites =
        (s2.satellites.foldl DataVaultGenerator.keepSatelliteStep
          (s1.satellites.foldl DataVaultGenerator.keepSatelliteStep ([], []))).1 := rfl
    rw [hsat, DataVaultGenerator.keepSatellite_all, DataVaultGenerator.keepSatellite_all]
    simp

/-- C8 witness: two one-hub schemas sharing the corn hub key, one satellite
each — at most one hub and link per key, the first corn hub survives, the
satellites are concatenated, and the corn-hub count is exactly 1. -/
theorem c8_merge_dedup_witness :
    ((DataVaultGenerator.merge_schemas 7 [mergeW1, mergeW2]).hubs.countP
        (fun h => h.hub_key == "corn_plante") ≤ 1) ∧
    ((DataVaultGenerator.merge_schemas 7 [mergeW1, mergeW2]).hubs.find?
        (fun h => h.hub_key == "corn_plante") =
      (([mergeW1, mergeW2].map (fun s => s.hubs)).flatten.find?
        (fun h => h.hub_key == "corn_plante"))) ∧
    ((DataVaultGenerator.merge_schemas 7 [mergeW1, mergeW2]).links.countP
        (fun l => l.link_key == "corn_plante") ≤ 1) ∧
    ((DataVaultGenerator.merge_schemas 7 [mergeW1, mergeW2]).links.find?
        (fun l => l.link_key == "corn_plante") =
      (([mergeW1, mergeW2].map (fun s => s.links)).flatten.find?
        (fun l => l.link_key == "corn_plante"))) ∧
    ((DataVaultGenerator.merge_schemas 7 [mergeW1, mergeW2]).satellites =
      ([mergeW1, mergeW2].map (fun s => s.satellites)).flatten) ∧
    ((DataVaultGenerator.merge_schemas 7 [mergeW1, mergeW2]).hubs.countP
        (fun h => h.business_key == "corn" && h.entity_type == "plante") = 1) ∧
    ((DataVaultGenerator.merge_schemas 7 [mergeW1, mergeW2]).satellites =
      mergeW1.satellites ++ mergeW2.satellites) := by
  have h := c8_merge_dedup id 7 "plante" mergeW1 mergeW2
    ⟨mkHub id 0 "corn" "plante" "img1" "uri" 1, by decide, by decide⟩
    (by decide)
  exact ⟨(h.1 [mergeW1, mergeW2] "corn_plante").1,
    (h.1 [mergeW1, mergeW2] "corn_plante").2.1,
    (h.1 [mergeW1, mergeW2] "corn_plante").2.2.1,
    (h.1 [mergeW1, mergeW2] "corn_plante").2.2.2.1,
    (h.1 [mergeW1, mergeW2] "corn_plante").2.2.2.2,
    h.2.1, h.2.2⟩
